import Mathlib

/-!
Shallow embedding of `src/code/dual_led.py` (class `DualLED`) and proofs about it.

Modelling conventions:
* Python strings are `List Char` (`Str`); `str.split(':')` is `pySplit`,
  `s[:-2]` is `stripLast2`, `str.upper()` is `pyUpper`.
* Python `float` values are modelled as exact fractions (`PyFloat`).
  Python's guarantee `float(str(x)) == x` is modelled by the injective
  rendering `floatRender` together with its inverse `floatParse`; `int(...)`
  on a float truncates toward zero (`pyTrunc`), and `int(...)` / `float(...)`
  on a string are `intParse` / `floatParse` (failure = `ValueError`).
* The two `machine.Pin` outputs are the booleans `led0`/`led1` (False = level
  0).  The single `machine.Timer` slot is `Option TimerH`: the timer mode,
  the frequency or period it was initialised with, and its callback closure
  (the closures of `dual_led.py` capture only the resolved wire, the count
  and the frequency, so they are first-order data here).  Delivering one
  timer callback is the `fire` function; a controller with `timer = none`
  is never fired (`fire` is the identity there).
* A Python method that can raise returns `DualLED × Option PyErr`: the first
  component is the object state when the method returns *or raises* (partial
  mutation before a raise is preserved), the second the raised exception.
-/

namespace DualLed

/-- Python strings are modelled as lists of characters. -/
abbrev Str := List Char

/-- Model of Python `str.upper()` (only ASCII color names occur). -/
def pyUpper (s : Str) : Str := s.map Char.toUpper

/-- The characters of the literal `'RED'`. -/
def REDs : Str := ['R', 'E', 'D']

/-- The characters of the literal `'GREEN'`. -/
def GREENs : Str := ['G', 'R', 'E', 'E', 'N']

/-- Model of the class attribute `DualLED.COLORS = ['RED', 'GREEN']`. -/
def COLORS : List Str := [REDs, GREENs]

/-- The characters of the state literal `'OFF'`. -/
def OFFs : Str := ['O', 'F', 'F']

/-- The characters of the state tag `'ON'`. -/
def ONs : Str := ['O', 'N']

/-- The characters of the state tag `'BLINK'`. -/
def BLINKs : Str := ['B', 'L', 'I', 'N', 'K']

/-- The characters of the state tag `'COUNT'`. -/
def COUNTs : Str := ['C', 'O', 'U', 'N', 'T']

/-- The characters of the state tag `'ALTERNATE'`. -/
def ALTERNATEs : Str := ['A', 'L', 'T', 'E', 'R', 'N', 'A', 'T', 'E']

/-- The characters of the unit suffix `'Hz'`. -/
def Hzs : Str := ['H', 'z']

/-- Python exceptions that `dual_led.py` can raise (messages elided):
`ValueError` from explicit `raise` / `float(...)` / `int(...)`,
`IndexError` from out-of-range list indexing in `restore_state`. -/
inductive PyErr
  | valueError
  | indexError
deriving DecidableEq

/-- Model of a Python `float`: an exact fraction `num / den`.  Python
floats are exact values with decidable equality; the model keeps them as
fractions (a value Python can hold always has `den ≠ 0`, see
`PyFloat.WF`).  Arithmetic is componentwise and total. -/
structure PyFloat where
  num : ℤ
  den : ℕ
deriving DecidableEq

/-- A fraction that denotes an actual Python float value. -/
def PyFloat.WF (f : PyFloat) : Prop := f.den ≠ 0

instance : Mul PyFloat := ⟨fun a b => ⟨a.num * b.num, a.den * b.den⟩⟩

instance : Div PyFloat :=
  ⟨fun a b =>
    if b.num < 0 then ⟨-(a.num * b.den), a.den * b.num.natAbs⟩
    else ⟨a.num * b.den, a.den * b.num.natAbs⟩⟩

instance (n : ℕ) : OfNat PyFloat n := ⟨⟨n, 1⟩⟩

instance : Neg PyFloat := ⟨fun f => ⟨-f.num, f.den⟩⟩

/-- Model of `DualLED.DEFAULT_FREQ = 3.0`. -/
def DEFAULT_FREQ : PyFloat := 3

/-- A number-like Python argument: an actual number (int/float, as an exact
fraction) or a string still to be converted by `float(...)` / `int(...)`. -/
inductive PyNum
  | num (f : PyFloat)
  | str (s : Str)
deriving DecidableEq

/-- Validity of an optional number-like argument: a number a Python caller
can actually pass (strings are arbitrary). -/
def PyNumWF : Option PyNum → Prop
  | some (.num f) => f.WF
  | _ => True

/-! ### Decimal rendering and parsing of numbers -/

/-- Fuel-driven base-10 rendering of a natural number, following Python's
`str(...)` digit output (fuel makes the recursion structural). -/
def natRenderAux : ℕ → ℕ → Str
  | 0, _ => []
  | fuel + 1, n =>
    if n < 10 then [Nat.digitChar n]
    else natRenderAux fuel (n / 10) ++ [Nat.digitChar (n % 10)]

/-- Base-10 rendering of a natural number. -/
def natRender (n : ℕ) : Str := natRenderAux (n + 1) n

/-- The numeric value of a decimal digit character, `none` otherwise. -/
def digitVal (c : Char) : Option ℕ :=
  if c.isDigit then some (c.toNat - 48) else none

/-- Left-to-right accumulation of decimal digits; any non-digit fails. -/
def natParseAux : Str → ℕ → Option ℕ
  | [], acc => some acc
  | c :: rest, acc =>
    match digitVal c with
    | some d => natParseAux rest (acc * 10 + d)
    | none => none

/-- Model of Python `int(string)` restricted to unsigned digit strings;
the empty string fails, as in Python. -/
def natParse (l : Str) : Option ℕ :=
  match l with
  | [] => none
  | _ => natParseAux l 0

/-- Base-10 rendering of an integer (leading `'-'` when negative),
following Python `str(...)` on an `int`. -/
def intRender (n : ℤ) : Str :=
  if n < 0 then '-' :: natRender n.natAbs else natRender n.natAbs

/-- Model of Python `int(string)`: optional leading `'-'`, then digits. -/
def intParse (l : Str) : Option ℤ :=
  match l with
  | [] => none
  | c :: rest =>
    if c = '-' then (natParse rest).map (fun m : ℕ => -(m : ℤ))
    else (natParse (c :: rest)).map (fun m : ℕ => (m : ℤ))

/-- Modelled stand-in for Python float formatting `f"{x}"`: an injective
rendering of the exact fraction (numerator, `'/'`, denominator).  Python
renders binary floats in decimal and guarantees `float(str(x)) == x`; the
model keeps exactly that interface through `floatParse`. -/
def floatRender (f : PyFloat) : Str := intRender f.num ++ '/' :: natRender f.den

/-- Split a character list at the first occurrence of `sep`, if any. -/
def splitFirst (sep : Char) : Str → Option (Str × Str)
  | [] => none
  | c :: rest =>
    if c = sep then some ([], rest)
    else (splitFirst sep rest).map (fun p => (c :: p.1, p.2))

/-- Modelled stand-in for Python `float(string)`: the inverse of
`floatRender`; any string not produced by `floatRender` fails
(as `float('PURPLE')` raises `ValueError`). -/
def floatParse (l : Str) : Option PyFloat :=
  match splitFirst '/' l with
  | none => none
  | some (a, b) =>
    match intParse a, natParse b with
    | some n, some d => if d = 0 then none else some ⟨n, d⟩
    | _, _ => none

/-- Model of Python `int(...)` applied to a float: truncation toward zero. -/
def pyTrunc (f : PyFloat) : ℤ := f.num.tdiv f.den

/-- Model of the argument treatment `freq = freq or self.freq` followed by
`freq = float(freq)`: `None`, `0` and `''` are falsy and yield the instance
default; a string is converted by `float` (may raise `ValueError`). -/
def freqCoerce (dflt : PyFloat) : Option PyNum → Except PyErr PyFloat
  | none => .ok dflt
  | some (.num f) => if f.num = 0 then .ok dflt else .ok f
  | some (.str l) =>
    if l = [] then .ok dflt
    else
      match floatParse l with
      | some f => .ok f
      | none => .error .valueError

/-- Model of `number = int(number)` in `count_number`: truncation of a
number, or integer parsing of a string (may raise `ValueError`). -/
def intCoerce : PyNum → Except PyErr ℤ
  | .num f => .ok (pyTrunc f)
  | .str l =>
    match intParse l with
    | some n => .ok n
    | none => .error .valueError

/-! ### The controller state -/

/-- The two physical wires: `w0` is `self.__led_0` (GPIO `gpio_0`, the
`COLORS[0]` wire), `w1` is `self.__led_1` (the `COLORS[1]` wire). -/
inductive Wire
  | w0
  | w1
deriving DecidableEq

/-- Timer modes of `machine.Timer` used by the program. -/
inductive TimerMode
  | periodic
  | oneShot
deriving DecidableEq

/-- The timer callbacks installed by `dual_led.py`, with the data their
closures capture: `blinkToggle` is `toggle_blinker` (captures `to_blink`),
`alternateToggle` is `__toggle_both`, `countToggle` is `__toggle_with_count`
and `countRestart` is `__start_count` (both capture `to_blink`, `number`
and `freq`). -/
inductive Callback
  | blinkToggle (w : Wire)
  | alternateToggle
  | countToggle (w : Wire) (number : ℤ) (freq : PyFloat)
  | countRestart (w : Wire) (number : ℤ) (freq : PyFloat)
deriving DecidableEq

/-- A live `machine.Timer`: its mode, the `freq=` or `period=` argument it
was initialised with, and its callback. -/
structure TimerH where
  mode : TimerMode
  tfreq : Option PyFloat
  period : Option ℤ
  cb : Callback
deriving DecidableEq

/-- The mutable state of one `DualLED` instance.  `state = []` models the
transient `self.state = None` inside `__init__` (overwritten by `off()`
before construction finishes). -/
structure DualLED where
  led0 : Bool
  led1 : Bool
  primary_color : Str
  primaryIsLed0 : Bool
  timer : Option TimerH
  tick_count : ℤ
  state : Str
  freq : PyFloat
deriving DecidableEq

/-- The wire currently designated `self.primary_led`. -/
def primary_led (s : DualLED) : Wire := if s.primaryIsLed0 then .w0 else .w1

/-- The wire currently designated `self.secondary_led`. -/
def secondary_led (s : DualLED) : Wire := if s.primaryIsLed0 then .w1 else .w0

/-- Model of `Pin.value()` (read a wire's level). -/
def wireVal (s : DualLED) : Wire → Bool
  | .w0 => s.led0
  | .w1 => s.led1

/-- Model of `Pin.value(b)` (drive a wire's level). -/
def setWire (s : DualLED) (w : Wire) (b : Bool) : DualLED :=
  match w with
  | .w0 => { s with led0 := b }
  | .w1 => { s with led1 := b }

/-- Model of `Pin.toggle()`. -/
def toggleWire (s : DualLED) (w : Wire) : DualLED :=
  setWire s w (!wireVal s w)

/-- Model of `DualLED.stop_timer`: deinitialise and drop any live timer,
reset `tick_count`. -/
def stop_timer (s : DualLED) : DualLED :=
  { s with timer := none, tick_count := 0 }

/-- Model of `DualLED.set_primary_color`: uppercase, validate against
`COLORS` (raising `ValueError` before any mutation), then reassign the
primary/secondary wire designation.  Wire levels are not touched. -/
def set_primary_color (s : DualLED) (color : Str) : DualLED × Option PyErr :=
  let c := pyUpper color
  if c ∈ COLORS then
    let s1 := { s with primary_color := c }
    if s1.primary_color = REDs then ({ s1 with primaryIsLed0 := true }, none)
    else ({ s1 with primaryIsLed0 := false }, none)
  else (s, some .valueError)

/-- Model of `DualLED.led_for_color`: `None` or `''` resolves to the
primary pair; otherwise the uppercased name must be in `COLORS`
(`ValueError` if not) and resolves through `color_map`
(`'RED' ↦ __led_0`, `'GREEN' ↦ __led_1`). -/
def led_for_color (s : DualLED) (color : Option Str) : Except PyErr (Wire × Wire × Str) :=
  match color with
  | none => .ok (primary_led s, secondary_led s, s.primary_color)
  | some c =>
    if c = [] then .ok (primary_led s, secondary_led s, s.primary_color)
    else if pyUpper c ∈ COLORS then
      if pyUpper c = REDs then .ok (.w0, .w1, pyUpper c)
      else .ok (.w1, .w0, pyUpper c)
    else .error .valueError

/-- Model of `DualLED.off`: stop the timer, drive both wires low, set the
state descriptor to `'OFF'`.  Never raises. -/
def off (s : DualLED) : DualLED :=
  let s1 := stop_timer s
  { s1 with led0 := false, led1 := false, state := OFFs }

/-- Model of `DualLED.on`: stop the timer, then resolve the color (a raise
here leaves the already-stopped timer stopped), then secondary low,
chosen wire high, state `'ON:<COLOR>'`. -/
def on' (s : DualLED) (color : Option Str) : DualLED × Option PyErr :=
  let s1 := stop_timer s
  match led_for_color s1 color with
  | .error e => (s1, some e)
  | .ok (p, q, c) =>
    let s2 := setWire s1 q false
    let s3 := setWire s2 p true
    ({ s3 with state := ONs ++ ':' :: c }, none)

/-- Model of `DualLED.toggle`: stop the timer, resolve the color, then act
as an on/off flip-flop on the current descriptor. -/
def toggle (s : DualLED) (color : Option Str) : DualLED × Option PyErr :=
  let s1 := stop_timer s
  match led_for_color s1 color with
  | .error e => (s1, some e)
  | .ok (_, _, c) =>
    if s1.state ≠ OFFs then (off s1, none) else on' s1 (some c)

/-- Model of `DualLED.get_state`: the current descriptor under key
`'STATE'` together with the wire level of each color name. -/
def get_state (s : DualLED) : Str × List (Str × Bool) :=
  (s.state, [(REDs, s.led0), (GREENs, s.led1)])

/-- Model of `DualLED.blink`: coerce the frequency (raises before any
mutation), stop the timer, force the `off()` baseline, resolve the color
(raising here leaves wires low and state `'OFF'`), set the descriptor and
start the periodic toggle timer at `freq * 2`. -/
def blink (s : DualLED) (freqA : Option PyNum) (color : Option Str) : DualLED × Option PyErr :=
  match freqCoerce s.freq freqA with
  | .error e => (s, some e)
  | .ok f =>
    let s1 := stop_timer s
    let s2 := off s1
    match led_for_color s2 color with
    | .error e => (s2, some e)
    | .ok (p, _, c) =>
      let s3 := { s2 with state := BLINKs ++ ':' :: (c ++ ':' :: (floatRender f ++ Hzs)) }
      ({ s3 with timer := some ⟨.periodic, some (f * 2), none, .blinkToggle p⟩ }, none)

/-- Model of `DualLED.alternate_colors`: coerce the frequency, stop the
timer, take the `on()` baseline (primary high, secondary low), set the
descriptor and start the periodic both-wire toggle timer at `freq * 2`. -/
def alternate_colors (s : DualLED) (freqA : Option PyNum) : DualLED × Option PyErr :=
  match freqCoerce s.freq freqA with
  | .error e => (s, some e)
  | .ok f =>
    let s1 := stop_timer s
    match on' s1 none with
    | (s2, some e) => (s2, some e)
    | (s2, none) =>
      let s3 := { s2 with state := ALTERNATEs ++ ':' :: ':' :: (floatRender f ++ Hzs) }
      ({ s3 with timer := some ⟨.periodic, some (f * 2), none, .alternateToggle⟩ }, none)

/-- Model of `DualLED.count_number`: coerce frequency then count, force
both wires off, resolve the color (raising here leaves wires low and state
`'OFF'`), set the descriptor, then `__start_count(None)`: stop the timer,
zero `tick_count` and start the periodic counting toggle at `freq * 2`. -/
def count_number (s : DualLED) (numberA : PyNum) (freqA : Option PyNum)
    (color : Option Str) : DualLED × Option PyErr :=
  match freqCoerce s.freq freqA with
  | .error e => (s, some e)
  | .ok f =>
    match intCoerce numberA with
    | .error e => (s, some e)
    | .ok n =>
      let s1 := off s
      match led_for_color s1 color with
      | .error e => (s1, some e)
      | .ok (p, _, c) =>
        let s2 := { s1 with
          state := COUNTs ++ ':' :: (c ++ ':' :: (intRender n ++ ':' :: (floatRender f ++ Hzs))) }
        let s3 := stop_timer s2
        ({ s3 with tick_count := 0,
                   timer := some ⟨.periodic, some (f * 2), none, .countToggle p n f⟩ }, none)

/-- Deliver one firing of the given callback (the body of the Python
closures `toggle_blinker`, `__toggle_both`, `__toggle_with_count`,
`__start_count`). -/
def fireCb (cb : Callback) (s : DualLED) : DualLED :=
  match cb with
  | .blinkToggle w => toggleWire s w
  | .alternateToggle => toggleWire (toggleWire s (secondary_led s)) (primary_led s)
  | .countToggle w n f =>
    let s1 := toggleWire s w
    if wireVal s1 w then { s1 with tick_count := s1.tick_count + 1 }
    else if n ≤ s1.tick_count then
      let s2 := stop_timer s1
      { s2 with timer := some ⟨.oneShot, none, some (pyTrunc (4000 / f)), .countRestart w n f⟩ }
    else s1
  | .countRestart w n f =>
    let s1 := stop_timer s
    { s1 with tick_count := 0,
              timer := some ⟨.periodic, some (f * 2), none, .countToggle w n f⟩ }

/-- Deliver one firing of the currently live timer (no live timer: no
callback can fire, the state is unchanged). -/
def fire (s : DualLED) : DualLED :=
  match s.timer with
  | none => s
  | some t => fireCb t.cb s

/-- Number of rising (low-to-high) transitions wire `w` makes during the
first `k` timer firings from `s`. -/
def risingSteps (w : Wire) (s : DualLED) : ℕ → ℕ
  | 0 => 0
  | k + 1 =>
    risingSteps w s k +
      (if wireVal (fire^[k + 1] s) w = true ∧ wireVal (fire^[k] s) w = false then 1 else 0)

/-! ### Restoring from a descriptor string -/

/-- Model of Python `str.split(sep)` for a single-character separator. -/
def pySplit (sep : Char) : Str → List Str
  | [] => [[]]
  | c :: rest =>
    match pySplit sep rest with
    | [] => [[c]]
    | seg :: segs =>
      if c = sep then [] :: seg :: segs
      else (c :: seg) :: segs

/-- Model of the Python slice `s[:-2]` (drop the last two characters;
shorter strings become empty, a slice never raises). -/
def stripLast2 (l : Str) : Str := l.take (l.length - 2)

/-- Model of `state[-1]` on the (always nonempty) result of `split(':')`. -/
def pyLastF (f0 : Str) (rest : List Str) : Str :=
  (f0 :: rest).getLast (List.cons_ne_nil f0 rest)

/-- Package a transition result as `restore_state` sees it: a raised
exception is caught and logged by `print_exception` (second component
`true` means something was logged). -/
def toLogged (r : DualLED × Option PyErr) : DualLED × Bool :=
  (r.1, r.2.isSome)

/-- Dispatch of `DualLED.restore_state` over the fields of the split
descriptor: the `if`/`elif` chain of the Python body.  A missing field
(Python `IndexError` on `state[1]` / `state[2]`) and a `ValueError`
raised by the re-invoked transition are both caught and logged
(`toLogged`); a first field matching no branch falls through silently.
The `[]` case is unreachable: `split(':')` always returns at least one
field (`pySplit_ne_nil`). -/
def restoreFields (s : DualLED) : List Str → DualLED × Bool
  | [] => (s, false)
  | f0 :: rest =>
    if f0 = OFFs then (off s, false)
    else if f0 = ONs then
      match rest with
      | c :: _ => toLogged (on' s (some c))
      | [] => (s, true)
    else if f0 = BLINKs then
      match rest with
      | c :: _ =>
        toLogged (blink s (some (.str (stripLast2 (pyLastF f0 rest)))) (some c))
      | [] => (s, true)
    else if f0 = COUNTs then
      match rest with
      | c :: numF :: _ =>
        toLogged (count_number s (.str numF)
          (some (.str (stripLast2 (pyLastF f0 rest)))) (some c))
      | _ => (s, true)
    else if f0 = ALTERNATEs then
      toLogged (alternate_colors s (some (.str (stripLast2 (pyLastF f0 rest)))))
    else (s, false)

/-- Model of `DualLED.restore_state` applied to the descriptor string (the
`kwargs` plumbing that extracts the string under a `state`/`STATE` key is
outside the model): split on `':'` and dispatch on the first field. -/
def restore_state (s : DualLED) (l : Str) : DualLED × Bool :=
  restoreFields s (pySplit ':' l)

/-! ### Construction -/

/-- Model of `DualLED.__init__` (GPIO numbers elided: `setup_control`
creates both pins at level 0).  `self.freq = freq or DEFAULT_FREQ` (so a
`0` argument falls back to the default), `setup_control` validates the
primary color through `set_primary_color` (a bad name is fatal to
construction), then `off()` establishes the initial state. -/
def initLED (primary_color : Str) (freqA : Option PyFloat) : Except PyErr DualLED :=
  let base : DualLED :=
    { led0 := false, led1 := false, primary_color := pyUpper primary_color,
      primaryIsLed0 := true, timer := none, tick_count := 0, state := [],
      freq := match freqA with
              | none => DEFAULT_FREQ
              | some f => if f.num = 0 then DEFAULT_FREQ else f }
  match set_primary_color base base.primary_color with
  | (_, some e) => .error e
  | (s1, none) => .ok (off s1)

/-- The states a `DualLED` object can actually be in after construction:
closed under every public method (including the partially-mutated states
left behind by a raising method) and under timer firings. -/
inductive Reachable : DualLED → Prop
  | init (pc : Str) (fa : Option PyFloat) (s : DualLED) :
      (∀ f, fa = some f → f.WF) → initLED pc fa = .ok s → Reachable s
  | offR (s : DualLED) : Reachable s → Reachable (off s)
  | onR (s : DualLED) (c : Option Str) : Reachable s → Reachable (on' s c).1
  | toggleR (s : DualLED) (c : Option Str) : Reachable s → Reachable (toggle s c).1
  | blinkR (s : DualLED) (fa : Option PyNum) (c : Option Str) :
      PyNumWF fa → Reachable s → Reachable (blink s fa c).1
  | alternateR (s : DualLED) (fa : Option PyNum) :
      PyNumWF fa → Reachable s → Reachable (alternate_colors s fa).1
  | countR (s : DualLED) (na : PyNum) (fa : Option PyNum) (c : Option Str) :
      PyNumWF fa → Reachable s → Reachable (count_number s na fa c).1
  | setPrimaryR (s : DualLED) (c : Str) :
      Reachable s → Reachable (set_primary_color s c).1
  | restoreR (s : DualLED) (l : Str) :
      Reachable s → Reachable (restore_state s l).1
  | stopR (s : DualLED) : Reachable s → Reachable (stop_timer s)
  | fireR (s : DualLED) : Reachable s → Reachable (fire s)

/-- The concrete freshly-constructed instance `DualLED(gpio0, gpio1, 'RED')`
used by the concrete witnesses and counterexamples below. -/
def sampleLED : DualLED :=
  { led0 := false, led1 := false, primary_color := REDs, primaryIsLed0 := true,
    timer := none, tick_count := 0, state := OFFs, freq := 3 }

/-- The periodic counting timer installed by `count_number` /
`__start_count`. -/
def periodicCountTimer (w : Wire) (n : ℤ) (f : PyFloat) : TimerH :=
  ⟨.periodic, some (f * 2), none, .countToggle w n f⟩

/-- The one-shot pause timer armed when a counting burst completes. -/
def pausedCountTimer (w : Wire) (n : ℤ) (f : PyFloat) : TimerH :=
  ⟨.oneShot, none, some (pyTrunc (4000 / f)), .countRestart w n f⟩

/-- The controller state after `k` firings of an in-progress counting
burst that started from `s0`: the counted wire is high after odd firings,
`tick_count` counts the completed rising edges. -/
def burstState (s0 : DualLED) (w : Wire) (k : ℕ) : DualLED :=
  { setWire s0 w (decide (k % 2 = 1)) with tick_count := (((k + 1) / 2 : ℕ) : ℤ) }

/-- The descriptor strings `self.state` can hold: exactly the five
formats produced by the transition methods, with a color from `COLORS`
and number fields rendered from actual values. -/
inductive StateWF : Str → Prop
  | offS : StateWF OFFs
  | onS (c : Str) : c ∈ COLORS → StateWF (ONs ++ ':' :: c)
  | blinkS (c : Str) (f : PyFloat) : c ∈ COLORS → f.WF →
      StateWF (BLINKs ++ ':' :: (c ++ ':' :: (floatRender f ++ Hzs)))
  | countS (c : Str) (n : ℤ) (f : PyFloat) : c ∈ COLORS → f.WF →
      StateWF (COUNTs ++ ':' :: (c ++ ':' :: (intRender n ++ ':' :: (floatRender f ++ Hzs))))
  | altS (f : PyFloat) : f.WF →
      StateWF (ALTERNATEs ++ ':' :: ':' :: (floatRender f ++ Hzs))

/-- Well-formedness invariant of a constructed controller: the primary
color is one of `COLORS`, the stored default frequency is a real float,
and the descriptor has one of the five produced formats. -/
def WFLED (s : DualLED) : Prop :=
  s.primary_color ∈ COLORS ∧ s.freq.WF ∧ StateWF s.state

/-! ### Facts about rendering and parsing -/

theorem natRenderAux_irrel : ∀ f1 f2 n : ℕ, n < f1 → n < f2 →
    natRenderAux f1 n = natRenderAux f2 n := by
  intro f1
  induction f1 with
  | zero => intro f2 n h1 _; omega
  | succ f1 ih =>
    intro f2 n h1 h2
    cases f2 with
    | zero => omega
    | succ f2 =>
      simp only [natRenderAux]
      by_cases hn : n < 10
      · simp [hn]
      · have hd : n / 10 < n := Nat.div_lt_self (by omega) (by omega)
        simp only [if_neg hn]
        rw [ih f2 (n / 10) (by omega) (by omega)]

theorem natRenderAux_eq_natRender (fuel n : ℕ) (h : n < fuel) :
    natRenderAux fuel n = natRender n :=
  natRenderAux_irrel fuel (n + 1) n h (Nat.lt_succ_self n)

theorem digitChar_isDigit (n : ℕ) (h : n < 10) : (Nat.digitChar n).isDigit := by
  interval_cases n <;> decide

theorem digitVal_digitChar (n : ℕ) (h : n < 10) : digitVal (Nat.digitChar n) = some n := by
  interval_cases n <;> decide

theorem natRenderAux_chars : ∀ fuel n : ℕ, ∀ c ∈ natRenderAux fuel n, c.isDigit := by
  intro fuel
  induction fuel with
  | zero => intro n c hc; simp [natRenderAux] at hc
  | succ fuel ih =>
    intro n c hc
    simp only [natRenderAux] at hc
    by_cases hn : n < 10
    · rw [if_pos hn] at hc
      simp only [List.mem_singleton] at hc
      exact hc ▸ digitChar_isDigit n hn
    · rw [if_neg hn] at hc
      rcases List.mem_append.1 hc with h | h
      · exact ih (n / 10) c h
      · simp only [List.mem_singleton] at h
        exact h ▸ digitChar_isDigit (n % 10) (Nat.mod_lt n (by omega))

theorem natRender_chars (n : ℕ) : ∀ c ∈ natRender n, c.isDigit :=
  fun c hc => natRenderAux_chars (n + 1) n c hc

theorem natRender_ne_nil (n : ℕ) : natRender n ≠ [] := by
  simp only [natRender, natRenderAux]
  by_cases hn : n < 10 <;> simp [hn]

theorem natParseAux_append : ∀ a b : Str, ∀ acc : ℕ,
    natParseAux (a ++ b) acc = (natParseAux a acc).bind (fun r => natParseAux b r) := by
  intro a
  induction a with
  | nil => intro b acc; rfl
  | cons c a ih =>
    intro b acc
    simp only [List.cons_append, natParseAux]
    cases digitVal c with
    | none => rfl
    | some d => exact ih b (acc * 10 + d)

theorem natParseAux_render (n : ℕ) : ∀ acc : ℕ,
    natParseAux (natRender n) acc = some (acc * 10 ^ (natRender n).length + n) := by
  induction n using Nat.strong_induction_on with
  | _ n ih =>
    intro acc
    by_cases hn : n < 10
    · simp only [natRender, natRenderAux, if_pos hn, natParseAux,
        digitVal_digitChar n hn, List.length_singleton]
      simp
    · have hd : n / 10 < n := Nat.div_lt_self (by omega) (by omega)
      have hrw : natRender n = natRender (n / 10) ++ [Nat.digitChar (n % 10)] := by
        conv_lhs => rw [natRender, natRenderAux]
        rw [if_neg hn, natRenderAux_eq_natRender n (n / 10) hd]
      rw [hrw, natParseAux_append, ih (n / 10) hd acc]
      have hm : n % 10 < 10 := Nat.mod_lt n (by omega)
      simp only [Option.some_bind, natParseAux, digitVal_digitChar (n % 10) hm,
        List.length_append, List.length_singleton]
      congr 1
      rw [pow_succ, ← mul_assoc]
      generalize acc * 10 ^ (natRender (n / 10)).length = A
      omega

theorem natParse_natRender (n : ℕ) : natParse (natRender n) = some n := by
  obtain ⟨c, rest, hcr⟩ := List.exists_cons_of_ne_nil (natRender_ne_nil n)
  have h := natParseAux_render n 0
  rw [hcr] at h ⊢
  simpa using h

theorem isDigit_ne_dash {c : Char} (h : c.isDigit) : c ≠ '-' := by
  intro he; rw [he] at h; exact absurd h (by decide)

theorem isDigit_ne_slash {c : Char} (h : c.isDigit) : c ≠ '/' := by
  intro he; rw [he] at h; exact absurd h (by decide)

theorem isDigit_ne_colon {c : Char} (h : c.isDigit) : c ≠ ':' := by
  intro he; rw [he] at h; exact absurd h (by decide)

theorem intParse_intRender (n : ℤ) : intParse (intRender n) = some n := by
  by_cases hn : n < 0
  · rw [intRender, if_pos hn]
    show intParse ('-' :: natRender n.natAbs) = some n
    rw [intParse, if_pos rfl, natParse_natRender, Option.map_some']
    congr 1
    rw [Int.natCast_natAbs, abs_of_neg hn, neg_neg]
  · rw [intRender, if_neg hn]
    obtain ⟨c, rest, hcr⟩ := List.exists_cons_of_ne_nil (natRender_ne_nil n.natAbs)
    have hc : c.isDigit :=
      natRender_chars n.natAbs c (by rw [hcr]; exact List.mem_cons_self c rest)
    rw [hcr, intParse, if_neg (isDigit_ne_dash hc), ← hcr, natParse_natRender,
      Option.map_some']
    congr 1
    rw [Int.natCast_natAbs, abs_of_nonneg (by omega)]

theorem intRender_chars (n : ℤ) : ∀ c ∈ intRender n, c.isDigit ∨ c = '-' := by
  intro c hc
  simp only [intRender] at hc
  by_cases hn : n < 0
  · rw [if_pos hn] at hc
    rcases List.mem_cons.1 hc with h | h
    · exact Or.inr h
    · exact Or.inl (natRender_chars n.natAbs c h)
  · rw [if_neg hn] at hc
    exact Or.inl (natRender_chars n.natAbs c hc)

theorem slash_not_mem_intRender (n : ℤ) : '/' ∉ intRender n := by
  intro h
  rcases intRender_chars n '/' h with h' | h'
  · exact absurd h' (by decide)
  · exact absurd h' (by decide)

theorem colon_not_mem_intRender (n : ℤ) : ':' ∉ intRender n := by
  intro h
  rcases intRender_chars n ':' h with h' | h'
  · exact absurd h' (by decide)
  · exact absurd h' (by decide)

theorem colon_not_mem_natRender (n : ℕ) : ':' ∉ natRender n := by
  intro h
  exact absurd (natRender_chars n ':' h) (by decide)

theorem colon_not_mem_floatRender (f : PyFloat) : ':' ∉ floatRender f := by
  intro h
  simp only [floatRender] at h
  rcases List.mem_append.1 h with h' | h'
  · exact colon_not_mem_intRender f.num h'
  · rcases List.mem_cons.1 h' with h2 | h2
    · exact absurd h2 (by decide)
    · exact colon_not_mem_natRender f.den h2

theorem floatRender_ne_nil (f : PyFloat) : floatRender f ≠ [] := by
  simp only [floatRender]
  intro h
  exact absurd (List.append_eq_nil.1 h).2 (by simp)

theorem splitFirst_append (sep : Char) : ∀ a b : Str, sep ∉ a →
    splitFirst sep (a ++ sep :: b) = some (a, b) := by
  intro a
  induction a with
  | nil => intro b _; simp [splitFirst]
  | cons c a ih =>
    intro b hmem
    have hc : c ≠ sep := fun h => hmem (h ▸ List.mem_cons_self c a)
    have ha : sep ∉ a := fun h => hmem (List.mem_cons_of_mem c h)
    simp only [List.cons_append, splitFirst, List.append_eq, if_neg hc, ih b ha,
      Option.map_some']

theorem floatParse_floatRender (f : PyFloat) (hf : f.WF) :
    floatParse (floatRender f) = some f := by
  simp only [floatRender, floatParse,
    splitFirst_append '/' (intRender f.num) (natRender f.den) (slash_not_mem_intRender f.num),
    intParse_intRender, natParse_natRender]
  rw [if_neg hf]

/-! ### Facts about splitting -/

theorem pySplit_ne_nil (sep : Char) : ∀ l : Str, pySplit sep l ≠ [] := by
  intro l
  induction l with
  | nil => simp [pySplit]
  | cons c rest ih =>
    simp only [pySplit]
    cases h : pySplit sep rest with
    | nil => simp
    | cons seg segs => by_cases hc : c = sep <;> simp [hc]

theorem pySplit_not_mem (sep : Char) : ∀ l : Str, sep ∉ l → pySplit sep l = [l] := by
  intro l
  induction l with
  | nil => intro _; rfl
  | cons c rest ih =>
    intro hmem
    have hc : c ≠ sep := fun h => hmem (h ▸ List.mem_cons_self c rest)
    have hr : sep ∉ rest := fun h => hmem (List.mem_cons_of_mem c h)
    simp only [pySplit, ih hr, if_neg hc]

theorem pySplit_append (sep : Char) : ∀ a b : Str, sep ∉ a →
    pySplit sep (a ++ sep :: b) = a :: pySplit sep b := by
  intro a
  induction a with
  | nil =>
    intro b _
    simp only [List.nil_append, pySplit]
    cases h : pySplit sep b with
    | nil => exact absurd h (pySplit_ne_nil sep b)
    | cons seg segs => simp
  | cons c a ih =>
    intro b hmem
    have hc : c ≠ sep := fun h => hmem (h ▸ List.mem_cons_self c a)
    have ha : sep ∉ a := fun h => hmem (List.mem_cons_of_mem c h)
    simp only [List.cons_append, pySplit, List.append_eq, ih b ha, if_neg hc]

/-! ### Projection lemmas for the state operations -/

@[simp] theorem setWire_primary_color (s : DualLED) (w : Wire) (b : Bool) :
    (setWire s w b).primary_color = s.primary_color := by cases w <;> rfl

@[simp] theorem setWire_primaryIsLed0 (s : DualLED) (w : Wire) (b : Bool) :
    (setWire s w b).primaryIsLed0 = s.primaryIsLed0 := by cases w <;> rfl

@[simp] theorem setWire_timer (s : DualLED) (w : Wire) (b : Bool) :
    (setWire s w b).timer = s.timer := by cases w <;> rfl

@[simp] theorem setWire_tick_count (s : DualLED) (w : Wire) (b : Bool) :
    (setWire s w b).tick_count = s.tick_count := by cases w <;> rfl

@[simp] theorem setWire_state (s : DualLED) (w : Wire) (b : Bool) :
    (setWire s w b).state = s.state := by cases w <;> rfl

@[simp] theorem setWire_freq (s : DualLED) (w : Wire) (b : Bool) :
    (setWire s w b).freq = s.freq := by cases w <;> rfl

@[simp] theorem wireVal_setWire_same (s : DualLED) (w : Wire) (b : Bool) :
    wireVal (setWire s w b) w = b := by cases w <;> rfl

theorem wireVal_setWire_other (s : DualLED) {w w' : Wire} (b : Bool) (h : w ≠ w') :
    wireVal (setWire s w b) w' = wireVal s w' := by
  cases w <;> cases w' <;> first | rfl | exact absurd rfl h

theorem setWire_self (s : DualLED) (w : Wire) : setWire s w (wireVal s w) = s := by
  cases w <;> rfl

@[simp] theorem toggleWire_primary_color (s : DualLED) (w : Wire) :
    (toggleWire s w).primary_color = s.primary_color := by simp [toggleWire]

@[simp] theorem toggleWire_primaryIsLed0 (s : DualLED) (w : Wire) :
    (toggleWire s w).primaryIsLed0 = s.primaryIsLed0 := by simp [toggleWire]

@[simp] theorem toggleWire_timer (s : DualLED) (w : Wire) :
    (toggleWire s w).timer = s.timer := by simp [toggleWire]

@[simp] theorem toggleWire_tick_count (s : DualLED) (w : Wire) :
    (toggleWire s w).tick_count = s.tick_count := by simp [toggleWire]

@[simp] theorem toggleWire_state (s : DualLED) (w : Wire) :
    (toggleWire s w).state = s.state := by simp [toggleWire]

@[simp] theorem toggleWire_freq (s : DualLED) (w : Wire) :
    (toggleWire s w).freq = s.freq := by simp [toggleWire]

@[simp] theorem wireVal_toggleWire_same (s : DualLED) (w : Wire) :
    wireVal (toggleWire s w) w = !(wireVal s w) := by simp [toggleWire]

@[simp] theorem stop_timer_led0 (s : DualLED) : (stop_timer s).led0 = s.led0 := rfl

@[simp] theorem stop_timer_led1 (s : DualLED) : (stop_timer s).led1 = s.led1 := rfl

@[simp] theorem stop_timer_primary_color (s : DualLED) :
    (stop_timer s).primary_color = s.primary_color := rfl

@[simp] theorem stop_timer_primaryIsLed0 (s : DualLED) :
    (stop_timer s).primaryIsLed0 = s.primaryIsLed0 := rfl

@[simp] theorem stop_timer_timer (s : DualLED) : (stop_timer s).timer = none := rfl

@[simp] theorem stop_timer_tick_count (s : DualLED) : (stop_timer s).tick_count = 0 := rfl

@[simp] theorem stop_timer_state (s : DualLED) : (stop_timer s).state = s.state := rfl

@[simp] theorem stop_timer_freq (s : DualLED) : (stop_timer s).freq = s.freq := rfl

@[simp] theorem off_led0 (s : DualLED) : (off s).led0 = false := rfl

@[simp] theorem off_led1 (s : DualLED) : (off s).led1 = false := rfl

@[simp] theorem off_primary_color (s : DualLED) : (off s).primary_color = s.primary_color := rfl

@[simp] theorem off_primaryIsLed0 (s : DualLED) : (off s).primaryIsLed0 = s.primaryIsLed0 := rfl

@[simp] theorem off_timer (s : DualLED) : (off s).timer = none := rfl

@[simp] theorem off_tick_count (s : DualLED) : (off s).tick_count = 0 := rfl

@[simp] theorem off_state (s : DualLED) : (off s).state = OFFs := rfl

@[simp] theorem off_freq (s : DualLED) : (off s).freq = s.freq := rfl

@[simp] theorem primary_led_setWire (s : DualLED) (w : Wire) (b : Bool) :
    primary_led (setWire s w b) = primary_led s := by simp [primary_led]

@[simp] theorem secondary_led_setWire (s : DualLED) (w : Wire) (b : Bool) :
    secondary_led (setWire s w b) = secondary_led s := by simp [secondary_led]

theorem primary_led_ne_secondary_led (s : DualLED) : primary_led s ≠ secondary_led s := by
  simp only [primary_led, secondary_led]
  cases s.primaryIsLed0 <;> simp

theorem off_stop_timer (s : DualLED) : off (stop_timer s) = off s := rfl

/-- Firing any callback leaves the descriptor, the primary designation and
the default frequency unchanged. -/
theorem fireCb_frame (cb : Callback) (s : DualLED) :
    (fireCb cb s).state = s.state ∧
    (fireCb cb s).primary_color = s.primary_color ∧
    (fireCb cb s).primaryIsLed0 = s.primaryIsLed0 ∧
    (fireCb cb s).freq = s.freq := by
  cases cb with
  | blinkToggle w => simp [fireCb]
  | alternateToggle => simp [fireCb]
  | countToggle w n f =>
    simp only [fireCb]
    split
    · simp
    · split
      · simp
      · simp
  | countRestart w n f => simp [fireCb]

theorem fire_frame (s : DualLED) :
    (fire s).state = s.state ∧
    (fire s).primary_color = s.primary_color ∧
    (fire s).primaryIsLed0 = s.primaryIsLed0 ∧
    (fire s).freq = s.freq := by
  rw [fire]
  cases s.timer with
  | none => exact ⟨rfl, rfl, rfl, rfl⟩
  | some t => exact fireCb_frame t.cb s

/-! ### Resolution of color arguments -/

theorem led_for_color_none (s : DualLED) :
    led_for_color s none = .ok (primary_led s, secondary_led s, s.primary_color) := rfl

theorem led_for_color_RED (s : DualLED) :
    led_for_color s (some REDs) = .ok (.w0, .w1, REDs) := rfl

theorem led_for_color_GREEN (s : DualLED) :
    led_for_color s (some GREENs) = .ok (.w1, .w0, GREENs) := rfl

theorem led_for_color_invalid (s : DualLED) (c : Str)
    (h1 : pyUpper c ∉ COLORS) (h2 : c ≠ []) :
    led_for_color s (some c) = .error .valueError := by
  simp only [led_for_color, if_neg h2, if_neg h1]

theorem led_for_color_mem (s : DualLED) (col : Option Str) (p q : Wire) (c : Str)
    (hp : s.primary_color ∈ COLORS) (h : led_for_color s col = .ok (p, q, c)) :
    c ∈ COLORS := by
  cases col with
  | none =>
    rw [led_for_color_none] at h
    injection h with h'
    simp only [Prod.mk.injEq] at h'
    exact h'.2.2 ▸ hp
  | some c0 =>
    simp only [led_for_color] at h
    split at h
    · injection h with h'
      simp only [Prod.mk.injEq] at h'
      exact h'.2.2 ▸ hp
    · split at h
      · split at h <;>
        · injection h with h'
          simp only [Prod.mk.injEq] at h'
          exact h'.2.2 ▸ (by assumption)
      · exact absurd h (by simp)

/-- A color actually in `COLORS` is one of the two literal names, is
nonempty, and is fixed by `pyUpper`. -/
theorem mem_COLORS_cases {c : Str} (h : c ∈ COLORS) : c = REDs ∨ c = GREENs := by
  simpa [COLORS] using h

theorem mem_COLORS_pyUpper {c : Str} (h : c ∈ COLORS) : pyUpper c = c := by
  rcases mem_COLORS_cases h with rfl | rfl <;> decide

theorem mem_COLORS_ne_nil {c : Str} (h : c ∈ COLORS) : c ≠ [] := by
  rcases mem_COLORS_cases h with rfl | rfl <;> decide

theorem led_for_color_valid (s : DualLED) {c : Str} (h : c ∈ COLORS) :
    led_for_color s (some c) =
      .ok (if c = REDs then (.w0, .w1, c) else (.w1, .w0, c)) := by
  rcases mem_COLORS_cases h with rfl | rfl <;> rfl

/-! ### Well-formedness of coerced numbers -/

theorem floatParse_WF {l : Str} {f : PyFloat} (h : floatParse l = some f) : f.WF := by
  simp only [floatParse] at h
  split at h
  · exact absurd h (by simp)
  · split at h
    · split at h
      · exact absurd h (by simp)
      · injection h with h'
        rw [← h']
        assumption
    · exact absurd h (by simp)

theorem freqCoerce_WF {dflt : PyFloat} {fa : Option PyNum} {f : PyFloat}
    (hd : dflt.WF) (ha : PyNumWF fa) (h : freqCoerce dflt fa = .ok f) : f.WF := by
  cases fa with
  | none =>
    injection h with h'
    rw [← h']
    exact hd
  | some a =>
    cases a with
    | num g =>
      simp only [freqCoerce] at h
      split at h
      · injection h with h'; rw [← h']; exact hd
      · injection h with h'; rw [← h']; exact ha
    | str l =>
      simp only [freqCoerce] at h
      split at h
      · injection h with h'; rw [← h']; exact hd
      · split at h
        · injection h with h'
          rw [← h']
          exact floatParse_WF (by assumption)
        · exact absurd h (by simp)

/-! ### Preservation of the well-formedness invariant -/

theorem WFLED_stop_timer (s : DualLED) (h : WFLED s) : WFLED (stop_timer s) := h

theorem WFLED_off (s : DualLED) (h : WFLED s) : WFLED (off s) :=
  ⟨h.1, h.2.1, StateWF.offS⟩

theorem WFLED_on (s : DualLED) (c : Option Str) (h : WFLED s) : WFLED (on' s c).1 := by
  simp only [on']
  cases hres : led_for_color (stop_timer s) c with
  | error e => exact WFLED_stop_timer s h
  | ok pqc =>
    obtain ⟨p, q, cc⟩ := pqc
    have hcc : cc ∈ COLORS :=
      led_for_color_mem (stop_timer s) c p q cc (by simpa using h.1) hres
    exact ⟨by simpa using h.1, by simpa using h.2.1, StateWF.onS cc hcc⟩

theorem WFLED_toggle (s : DualLED) (c : Option Str) (h : WFLED s) : WFLED (toggle s c).1 := by
  simp only [toggle]
  cases hres : led_for_color (stop_timer s) c with
  | error e => exact WFLED_stop_timer s h
  | ok pqc =>
    obtain ⟨p, q, cc⟩ := pqc
    show WFLED (if (stop_timer s).state ≠ OFFs then (off (stop_timer s), none)
      else on' (stop_timer s) (some cc)).1
    split
    · exact WFLED_off (stop_timer s) (WFLED_stop_timer s h)
    · exact WFLED_on (stop_timer s) (some cc) (WFLED_stop_timer s h)

theorem WFLED_blink (s : DualLED) (fa : Option PyNum) (c : Option Str)
    (hfa : PyNumWF fa) (h : WFLED s) : WFLED (blink s fa c).1 := by
  simp only [blink]
  cases hf : freqCoerce s.freq fa with
  | error e => exact h
  | ok f =>
    have hfWF : f.WF := freqCoerce_WF h.2.1 hfa hf
    cases hres : led_for_color (off (stop_timer s)) c with
    | error e => exact WFLED_off (stop_timer s) (WFLED_stop_timer s h)
    | ok pqc =>
      obtain ⟨p, q, cc⟩ := pqc
      have hcc : cc ∈ COLORS :=
        led_for_color_mem (off (stop_timer s)) c p q cc (by simpa using h.1) hres
      exact ⟨by simpa using h.1, by simpa using h.2.1, StateWF.blinkS cc f hcc hfWF⟩

theorem WFLED_alternate (s : DualLED) (fa : Option PyNum)
    (hfa : PyNumWF fa) (h : WFLED s) : WFLED (alternate_colors s fa).1 := by
  simp only [alternate_colors, on', led_for_color]
  cases hf : freqCoerce s.freq fa with
  | error e => exact h
  | ok f =>
    have hfWF : f.WF := freqCoerce_WF h.2.1 hfa hf
    exact ⟨by simpa using h.1, by simpa using h.2.1, StateWF.altS f hfWF⟩

theorem WFLED_count (s : DualLED) (na : PyNum) (fa : Option PyNum) (c : Option Str)
    (hfa : PyNumWF fa) (h : WFLED s) : WFLED (count_number s na fa c).1 := by
  simp only [count_number]
  cases hf : freqCoerce s.freq fa with
  | error e => exact h
  | ok f =>
    have hfWF : f.WF := freqCoerce_WF h.2.1 hfa hf
    cases hn : intCoerce na with
    | error e => exact h
    | ok n =>
      cases hres : led_for_color (off s) c with
      | error e => exact WFLED_off s h
      | ok pqc =>
        obtain ⟨p, q, cc⟩ := pqc
        have hcc : cc ∈ COLORS :=
          led_for_color_mem (off s) c p q cc (by simpa using h.1) hres
        exact ⟨by simpa using h.1, by simpa using h.2.1, StateWF.countS cc n f hcc hfWF⟩

theorem WFLED_set_primary (s : DualLED) (c : Str) (h : WFLED s) :
    WFLED (set_primary_color s c).1 := by
  simp only [set_primary_color]
  split
  · split
    · exact ⟨by assumption, h.2.1, h.2.2⟩
    · exact ⟨by assumption, h.2.1, h.2.2⟩
  · exact h

theorem WFLED_restoreFields (s : DualLED) (fields : List Str) (h : WFLED s) :
    WFLED (restoreFields s fields).1 := by
  cases fields with
  | nil => exact h
  | cons f0 rest =>
    simp only [restoreFields]
    split
    · exact WFLED_off s h
    · split
      · cases rest with
        | nil => exact h
        | cons c rest2 => exact WFLED_on s (some c) h
      · split
        · cases rest with
          | nil => exact h
          | cons c rest2 => exact WFLED_blink s _ (some c) (by trivial) h
        · split
          · cases rest with
            | nil => exact h
            | cons c rest2 =>
              cases rest2 with
              | nil => exact h
              | cons numF rest3 => exact WFLED_count s _ _ (some c) (by trivial) h
          · split
            · exact WFLED_alternate s _ (by trivial) h
            · exact h

theorem WFLED_restore (s : DualLED) (l : Str) (h : WFLED s) :
    WFLED (restore_state s l).1 :=
  WFLED_restoreFields s (pySplit ':' l) h

theorem WFLED_fire (s : DualLED) (h : WFLED s) : WFLED (fire s) := by
  obtain ⟨h1, h2, h3, h4⟩ := fire_frame s
  exact ⟨by rw [h2]; exact h.1, by rw [h4]; exact h.2.1, by rw [h1]; exact h.2.2⟩

theorem WFLED_init (pc : Str) (fa : Option PyFloat) (s : DualLED)
    (hw : ∀ f, fa = some f → f.WF) (hi : initLED pc fa = .ok s) : WFLED s := by
  cases fa with
  | none =>
    simp only [initLED, set_primary_color] at hi
    split at hi
    case h_1 => exact absurd hi (by simp)
    case h_2 s1 heq =>
      injection hi with hi2
      subst hi2
      split at heq
      · split at heq
        · injection heq with e1 e2
          subst e1
          exact ⟨by assumption, Nat.one_ne_zero, StateWF.offS⟩
        · injection heq with e1 e2
          subst e1
          exact ⟨by assumption, Nat.one_ne_zero, StateWF.offS⟩
      · injection heq with e1 e2
        exact absurd e2 (by simp)
  | some f =>
    simp only [initLED, set_primary_color] at hi
    split at hi
    case h_1 => exact absurd hi (by simp)
    case h_2 s1 heq =>
      injection hi with hi2
      subst hi2
      split at heq
      · split at heq
        · injection heq with e1 e2
          subst e1
          refine ⟨by assumption, ?_, StateWF.offS⟩
          show PyFloat.WF (if f.num = 0 then DEFAULT_FREQ else f)
          split
          · exact Nat.one_ne_zero
          · exact hw f rfl
        · injection heq with e1 e2
          subst e1
          refine ⟨by assumption, ?_, StateWF.offS⟩
          show PyFloat.WF (if f.num = 0 then DEFAULT_FREQ else f)
          split
          · exact Nat.one_ne_zero
          · exact hw f rfl
      · injection heq with e1 e2
        exact absurd e2 (by simp)

theorem Reachable_WFLED {s : DualLED} (h : Reachable s) : WFLED s := by
  induction h with
  | init pc fa s hw hi => exact WFLED_init pc fa s hw hi
  | offR s _ ih => exact WFLED_off s ih
  | onR s c _ ih => exact WFLED_on s c ih
  | toggleR s c _ ih => exact WFLED_toggle s c ih
  | blinkR s fa c hfa _ ih => exact WFLED_blink s fa c hfa ih
  | alternateR s fa hfa _ ih => exact WFLED_alternate s fa hfa ih
  | countR s na fa c hfa _ ih => exact WFLED_count s na fa c hfa ih
  | setPrimaryR s c _ ih => exact WFLED_set_primary s c ih
  | restoreR s l _ ih => exact WFLED_restore s l ih
  | stopR s _ ih => exact WFLED_stop_timer s ih
  | fireR s _ ih => exact WFLED_fire s ih

/-! ### Splitting the produced descriptors back into fields -/

theorem colon_not_mem_color {c : Str} (hc : c ∈ COLORS) : ':' ∉ c := by
  rcases mem_COLORS_cases hc with rfl | rfl <;> decide

theorem colon_not_mem_freqField (f : PyFloat) : ':' ∉ floatRender f ++ Hzs := by
  intro h
  rcases List.mem_append.1 h with h' | h'
  · exact colon_not_mem_floatRender f h'
  · exact absurd h' (by decide)

theorem pySplit_ON {c : Str} (hc : ':' ∉ c) :
    pySplit ':' (ONs ++ ':' :: c) = [ONs, c] := by
  rw [pySplit_append ':' ONs c (by decide), pySplit_not_mem ':' c hc]

theorem pySplit_BLINK {c : Str} (hc : ':' ∉ c) (f : PyFloat) :
    pySplit ':' (BLINKs ++ ':' :: (c ++ ':' :: (floatRender f ++ Hzs))) =
      [BLINKs, c, floatRender f ++ Hzs] := by
  rw [pySplit_append ':' BLINKs _ (by decide),
    pySplit_append ':' c _ hc,
    pySplit_not_mem ':' _ (colon_not_mem_freqField f)]

theorem pySplit_COUNT {c : Str} (hc : ':' ∉ c) (n : ℤ) (f : PyFloat) :
    pySplit ':' (COUNTs ++ ':' :: (c ++ ':' :: (intRender n ++ ':' :: (floatRender f ++ Hzs)))) =
      [COUNTs, c, intRender n, floatRender f ++ Hzs] := by
  rw [pySplit_append ':' COUNTs _ (by decide),
    pySplit_append ':' c _ hc,
    pySplit_append ':' (intRender n) _ (colon_not_mem_intRender n),
    pySplit_not_mem ':' _ (colon_not_mem_freqField f)]

theorem pySplit_ALT (f : PyFloat) :
    pySplit ':' (ALTERNATEs ++ ':' :: ':' :: (floatRender f ++ Hzs)) =
      [ALTERNATEs, [], floatRender f ++ Hzs] := by
  have h : ALTERNATEs ++ ':' :: ':' :: (floatRender f ++ Hzs) =
      ALTERNATEs ++ ':' :: ([] ++ ':' :: (floatRender f ++ Hzs)) := rfl
  rw [h, pySplit_append ':' ALTERNATEs _ (by decide),
    pySplit_append ':' [] _ (by decide),
    pySplit_not_mem ':' _ (colon_not_mem_freqField f)]

theorem stripLast2_append_Hzs (a : Str) : stripLast2 (a ++ Hzs) = a := by
  have hl : (a ++ Hzs).length - 2 = a.length := by
    simp only [List.length_append]
    rfl
  rw [stripLast2, hl, List.take_left]

/-! ### The transitions succeed on re-rendered arguments -/

theorem on'_valid (t : DualLED) {c : Str} (hc : c ∈ COLORS) :
    (on' t (some c)).2 = none ∧ (on' t (some c)).1.state = ONs ++ ':' :: c := by
  rcases mem_COLORS_cases hc with rfl | rfl <;> exact ⟨rfl, rfl⟩

theorem freqCoerce_renders (t : PyFloat) {f : PyFloat} (hf : f.WF) :
    freqCoerce t (some (.str (floatRender f))) = .ok f := by
  rw [freqCoerce, if_neg (floatRender_ne_nil f), floatParse_floatRender f hf]

theorem intCoerce_renders (n : ℤ) : intCoerce (.str (intRender n)) = .ok n := by
  rw [intCoerce, intParse_intRender]

theorem blink_valid (t : DualLED) {c : Str} (hc : c ∈ COLORS) {f : PyFloat} (hf : f.WF) :
    (blink t (some (.str (floatRender f))) (some c)).2 = none ∧
    (blink t (some (.str (floatRender f))) (some c)).1.state =
      BLINKs ++ ':' :: (c ++ ':' :: (floatRender f ++ Hzs)) := by
  simp only [blink, freqCoerce_renders t.freq hf]
  rcases mem_COLORS_cases hc with rfl | rfl
  · rw [led_for_color_RED]
    exact ⟨rfl, rfl⟩
  · rw [led_for_color_GREEN]
    exact ⟨rfl, rfl⟩

theorem count_valid (t : DualLED) {c : Str} (hc : c ∈ COLORS) (n : ℤ)
    {f : PyFloat} (hf : f.WF) :
    (count_number t (.str (intRender n)) (some (.str (floatRender f))) (some c)).2 = none ∧
    (count_number t (.str (intRender n)) (some (.str (floatRender f))) (some c)).1.state =
      COUNTs ++ ':' :: (c ++ ':' :: (intRender n ++ ':' :: (floatRender f ++ Hzs))) := by
  simp only [count_number, freqCoerce_renders t.freq hf, intCoerce_renders n]
  rcases mem_COLORS_cases hc with rfl | rfl
  · rw [led_for_color_RED]
    exact ⟨rfl, rfl⟩
  · rw [led_for_color_GREEN]
    exact ⟨rfl, rfl⟩

theorem alternate_valid (t : DualLED) {f : PyFloat} (hf : f.WF) :
    (alternate_colors t (some (.str (floatRender f)))).2 = none ∧
    (alternate_colors t (some (.str (floatRender f)))).1.state =
      ALTERNATEs ++ ':' :: ':' :: (floatRender f ++ Hzs) := by
  simp only [alternate_colors, freqCoerce_renders t.freq hf]
  exact ⟨rfl, rfl⟩

/-! ### Field dispatch on each produced descriptor -/

theorem restoreFields_OFF (t : DualLED) : restoreFields t [OFFs] = (off t, false) := rfl

theorem restoreFields_ON (t : DualLED) {c : Str} (hc : c ∈ COLORS) :
    restoreFields t [ONs, c] = ((on' t (some c)).1, false) := by
  show toLogged (on' t (some c)) = ((on' t (some c)).1, false)
  rw [toLogged, (on'_valid t hc).1]
  rfl

theorem restoreFields_BLINK (t : DualLED) {c : Str} (hc : c ∈ COLORS)
    {f : PyFloat} (hf : f.WF) :
    restoreFields t [BLINKs, c, floatRender f ++ Hzs] =
      ((blink t (some (.str (floatRender f))) (some c)).1, false) := by
  show toLogged (blink t (some (.str (stripLast2
    (pyLastF BLINKs [c, floatRender f ++ Hzs])))) (some c)) = _
  rw [show pyLastF BLINKs [c, floatRender f ++ Hzs] = floatRender f ++ Hzs from rfl,
    stripLast2_append_Hzs, toLogged, (blink_valid t hc hf).1]
  rfl

theorem restoreFields_COUNT (t : DualLED) {c : Str} (hc : c ∈ COLORS) (n : ℤ)
    {f : PyFloat} (hf : f.WF) :
    restoreFields t [COUNTs, c, intRender n, floatRender f ++ Hzs] =
      ((count_number t (.str (intRender n)) (some (.str (floatRender f))) (some c)).1,
        false) := by
  show toLogged (count_number t (.str (intRender n)) (some (.str (stripLast2
    (pyLastF COUNTs [c, intRender n, floatRender f ++ Hzs])))) (some c)) = _
  rw [show pyLastF COUNTs [c, intRender n, floatRender f ++ Hzs] = floatRender f ++ Hzs
      from rfl,
    stripLast2_append_Hzs, toLogged, (count_valid t hc n hf).1]
  rfl

theorem restoreFields_ALT (t : DualLED) {f : PyFloat} (hf : f.WF) :
    restoreFields t [ALTERNATEs, [], floatRender f ++ Hzs] =
      ((alternate_colors t (some (.str (floatRender f)))).1, false) := by
  show toLogged (alternate_colors t (some (.str (stripLast2
    (pyLastF ALTERNATEs [[], floatRender f ++ Hzs]))))) = _
  rw [show pyLastF ALTERNATEs [[], floatRender f ++ Hzs] = floatRender f ++ Hzs from rfl,
    stripLast2_append_Hzs, toLogged, (alternate_valid t hf).1]
  rfl

/-- Restoring any well-formed descriptor onto any controller succeeds
without logging and reproduces the same descriptor. -/
theorem restore_state_StateWF (t : DualLED) {d : Str} (hd : StateWF d) :
    (restore_state t d).2 = false ∧ (restore_state t d).1.state = d := by
  cases hd with
  | offS =>
    rw [restore_state, pySplit_not_mem ':' OFFs (by decide), restoreFields_OFF]
    exact ⟨rfl, rfl⟩
  | onS c hc =>
    rw [restore_state, pySplit_ON (colon_not_mem_color hc), restoreFields_ON t hc]
    exact ⟨rfl, (on'_valid t hc).2⟩
  | blinkS c f hc hf =>
    rw [restore_state, pySplit_BLINK (colon_not_mem_color hc) f,
      restoreFields_BLINK t hc hf]
    exact ⟨rfl, (blink_valid t hc hf).2⟩
  | countS c n f hc hf =>
    rw [restore_state, pySplit_COUNT (colon_not_mem_color hc) n f,
      restoreFields_COUNT t hc n hf]
    exact ⟨rfl, (count_valid t hc n hf).2⟩
  | altS f hf =>
    rw [restore_state, pySplit_ALT f, restoreFields_ALT t hf]
    exact ⟨rfl, (alternate_valid t hf).2⟩

/-! ### The counting burst: trajectory under timer firings -/

theorem fire_eq_of_timer (s : DualLED) (tm : TimerH) (h : s.timer = some tm) :
    fire s = fireCb tm.cb s := by
  rw [fire, h]

theorem setWire_setWire (s : DualLED) (w : Wire) (b c : Bool) :
    setWire (setWire s w b) w c = setWire s w c := by
  cases w <;> rfl

theorem burstState_zero (s0 : DualLED) (w : Wire)
    (hw : wireVal s0 w = false) (htc : s0.tick_count = 0) :
    burstState s0 w 0 = s0 := by
  rw [burstState]
  rw [show (decide (0 % 2 = 1)) = false from rfl, ← hw, setWire_self]
  cases s0
  simp_all

theorem wireVal_burstState (s0 : DualLED) (w : Wire) (k : ℕ) :
    wireVal (burstState s0 w k) w = decide (k % 2 = 1) := by
  cases w <;> rfl

theorem burstState_timer (s0 : DualLED) (w : Wire) (k : ℕ) :
    (burstState s0 w k).timer = s0.timer := by
  cases w <;> rfl

theorem burstState_tick (s0 : DualLED) (w : Wire) (k : ℕ) :
    (burstState s0 w k).tick_count = (((k + 1) / 2 : ℕ) : ℤ) := by
  cases w <;> rfl

theorem toggle_burstState (s0 : DualLED) (w : Wire) (k : ℕ) :
    toggleWire (burstState s0 w k) w =
      { setWire s0 w (!(decide (k % 2 = 1))) with
          tick_count := (((k + 1) / 2 : ℕ) : ℤ) } := by
  rw [toggleWire, wireVal_burstState]
  cases w <;> rfl

theorem wireVal_setWire_tick (s0 : DualLED) (w : Wire) (b : Bool) (t : ℤ) :
    wireVal { setWire s0 w b with tick_count := t } w = b := by
  cases w <;> rfl

theorem fire_burstState (s0 : DualLED) (w : Wire) (n : ℤ) (f : PyFloat)
    (ht : s0.timer = some (periodicCountTimer w n f)) (k : ℕ)
    (hcond : k % 2 = 0 ∨ (((k + 1) / 2 : ℕ) : ℤ) < n) :
    fire (burstState s0 w k) = burstState s0 w (k + 1) := by
  have htk : (burstState s0 w k).timer = some (periodicCountTimer w n f) := by
    rw [burstState_timer, ht]
  rw [fire_eq_of_timer _ _ htk]
  show fireCb (Callback.countToggle w n f) (burstState s0 w k) = _
  simp only [fireCb]
  rw [toggle_burstState]
  by_cases hpar : k % 2 = 1
  · -- odd firing index: the wire goes low, the completion test fails
    have hv : (((k + 1) / 2 : ℕ) : ℤ) < n := by
      rcases hcond with h | h
      · omega
      · exact h
    rw [show (!(decide (k % 2 = 1))) = false from by simp [hpar]]
    rw [wireVal_setWire_tick]
    rw [if_neg (by simp)]
    rw [if_neg (by
      show ¬(n ≤ ({ setWire s0 w false with
        tick_count := (((k + 1) / 2 : ℕ) : ℤ) } : DualLED).tick_count)
      simp only []
      omega)]
    rw [burstState]
    rw [show (decide ((k + 1) % 2 = 1)) = false from by simp [Nat.succ_mod_two_eq_one_iff]; omega]
    have htick : ((((k + 1) + 1) / 2 : ℕ) : ℤ) = (((k + 1) / 2 : ℕ) : ℤ) := by omega
    rw [show ({ setWire s0 w false with
        tick_count := ((((k + 1) + 1) / 2 : ℕ) : ℤ) } : DualLED) =
      { setWire s0 w false with tick_count := (((k + 1) / 2 : ℕ) : ℤ) } from by rw [htick]]
  · -- even firing index: the wire goes high, `tick_count` is incremented
    rw [show (!(decide (k % 2 = 1))) = true from by simp [hpar]]
    rw [wireVal_setWire_tick]
    rw [if_pos rfl]
    rw [burstState]
    rw [show (decide ((k + 1) % 2 = 1)) = true from by
      simp [Nat.succ_mod_two_eq_one_iff]; omega]
    have htick : (((k + 1) / 2 : ℕ) : ℤ) + 1 = ((((k + 1) + 1) / 2 : ℕ) : ℤ) := by omega
    show ({ setWire s0 w true with
      tick_count := (((k + 1) / 2 : ℕ) : ℤ) + 1 } : DualLED) = _
    rw [htick]



theorem fire_burstState_complete (s0 : DualLED) (w : Wire) (n : ℤ) (f : PyFloat)
    (ht : s0.timer = some (periodicCountTimer w n f))
    (hw : wireVal s0 w = false) (htc : s0.tick_count = 0) (k : ℕ)
    (hodd : k % 2 = 1) (hge : n ≤ (((k + 1) / 2 : ℕ) : ℤ)) :
    fire (burstState s0 w k) = { s0 with timer := some (pausedCountTimer w n f) } := by
  have htk : (burstState s0 w k).timer = some (periodicCountTimer w n f) := by
    rw [burstState_timer, ht]
  rw [fire_eq_of_timer _ _ htk]
  show fireCb (Callback.countToggle w n f) (burstState s0 w k) = _
  simp only [fireCb]
  rw [toggle_burstState]
  rw [show (!(decide (k % 2 = 1))) = false from by simp [hodd]]
  rw [wireVal_setWire_tick]
  rw [if_neg (by simp)]
  rw [if_pos (by
    show n ≤ ({ setWire s0 w false with
      tick_count := (((k + 1) / 2 : ℕ) : ℤ) } : DualLED).tick_count
    exact hge)]
  rw [← hw, setWire_self]
  rw [stop_timer]
  cases s0
  simp_all [pausedCountTimer]

theorem fire_pause (s0 : DualLED) (w : Wire) (n : ℤ) (f : PyFloat)
    (ht : s0.timer = some (periodicCountTimer w n f)) (htc : s0.tick_count = 0) :
    fire { s0 with timer := some (pausedCountTimer w n f) } = s0 := by
  rw [fire_eq_of_timer _ (pausedCountTimer w n f) rfl]
  show fireCb (Callback.countRestart w n f) _ = s0
  simp only [fireCb, stop_timer]
  cases s0
  simp_all [periodicCountTimer]

theorem burst_traj (s0 : DualLED) (w : Wire) (m : ℕ) (f : PyFloat) (hm : 1 ≤ m)
    (ht : s0.timer = some (periodicCountTimer w (m : ℤ) f))
    (hw : wireVal s0 w = false) (htc : s0.tick_count = 0) :
    (∀ k, k < 2 * m → fire^[k] s0 = burstState s0 w k) ∧
    fire^[2 * m] s0 = { s0 with timer := some (pausedCountTimer w (m : ℤ) f) } ∧
    fire^[2 * m + 1] s0 = s0 := by
  have hstep : ∀ k, k < 2 * m → fire^[k] s0 = burstState s0 w k := by
    intro k
    induction k with
    | zero =>
      intro _
      rw [Function.iterate_zero_apply, burstState_zero s0 w hw htc]
    | succ k ih =>
      intro hk
      rw [Function.iterate_succ_apply', ih (by omega)]
      apply fire_burstState s0 w (m : ℤ) f ht k
      by_cases hpar : k % 2 = 1
      · right
        omega
      · left
        omega
  refine ⟨hstep, ?_, ?_⟩
  · have h2m : 2 * m = (2 * m - 1) + 1 := by omega
    rw [h2m, Function.iterate_succ_apply', hstep (2 * m - 1) (by omega)]
    exact fire_burstState_complete s0 w (m : ℤ) f ht hw htc (2 * m - 1)
      (by omega) (by omega)
  · rw [Function.iterate_succ_apply']
    have h2m : 2 * m = (2 * m - 1) + 1 := by omega
    rw [h2m, Function.iterate_succ_apply', hstep (2 * m - 1) (by omega)]
    rw [fire_burstState_complete s0 w (m : ℤ) f ht hw htc (2 * m - 1)
      (by omega) (by omega)]
    exact fire_pause s0 w (m : ℤ) f ht htc


/-! ### Behaviour of the transitions on direct numeric arguments -/

theorem freqCoerce_num (dflt : PyFloat) {f : PyFloat} (hf : f.num ≠ 0) :
    freqCoerce dflt (some (.num f)) = .ok f := by
  rw [freqCoerce, if_neg hf]

theorem intCoerce_int (z : ℤ) : intCoerce (.num ⟨z, 1⟩) = .ok z := by
  rw [intCoerce]
  show Except.ok (z.tdiv 1) = Except.ok z
  rw [Int.tdiv_one]

theorem wireVal_of_false {x : DualLED} (h0 : x.led0 = false) (h1 : x.led1 = false)
    (w : Wire) : wireVal x w = false := by
  cases w
  · exact h0
  · exact h1

theorem count_number_eq (s : DualLED) (z : ℤ) (f : PyFloat) (hf : f.num ≠ 0) :
    count_number s (.num ⟨z, 1⟩) (some (.num f)) none =
      ({ off s with
          state := COUNTs ++ ':' ::
            (s.primary_color ++ ':' :: (intRender z ++ ':' :: (floatRender f ++ Hzs))),
          timer := some (periodicCountTimer (primary_led s) z f) }, none) := by
  simp only [count_number, freqCoerce_num s.freq hf, intCoerce_int z, led_for_color]
  rfl

theorem count_number_components (s : DualLED) (z : ℤ) (f : PyFloat) (hf : f.num ≠ 0) :
    (count_number s (.num ⟨z, 1⟩) (some (.num f)) none).2 = none ∧
    (count_number s (.num ⟨z, 1⟩) (some (.num f)) none).1.timer =
      some (periodicCountTimer (primary_led s) z f) ∧
    wireVal (count_number s (.num ⟨z, 1⟩) (some (.num f)) none).1 (primary_led s) = false ∧
    (count_number s (.num ⟨z, 1⟩) (some (.num f)) none).1.tick_count = 0 := by
  rw [count_number_eq s z f hf]
  exact ⟨rfl, rfl, wireVal_of_false rfl rfl (primary_led s), rfl⟩

theorem blink_zero (s : DualLED) (c : Option Str) {f0 : PyFloat} (h : f0.num = 0) :
    blink s (some (.num f0)) c = blink s none c := by
  have he : freqCoerce s.freq (some (.num f0)) = freqCoerce s.freq none := by
    simp only [freqCoerce, if_pos h]
  rw [blink, blink, he]

theorem alternate_zero (s : DualLED) {f0 : PyFloat} (h : f0.num = 0) :
    alternate_colors s (some (.num f0)) = alternate_colors s none := by
  have he : freqCoerce s.freq (some (.num f0)) = freqCoerce s.freq none := by
    simp only [freqCoerce, if_pos h]
  rw [alternate_colors, alternate_colors, he]

theorem count_zero (s : DualLED) (na : PyNum) (c : Option Str) {f0 : PyFloat}
    (h : f0.num = 0) :
    count_number s na (some (.num f0)) c = count_number s na none c := by
  have he : freqCoerce s.freq (some (.num f0)) = freqCoerce s.freq none := by
    simp only [freqCoerce, if_pos h]
  rw [count_number, count_number, he]

theorem blink_num_eq (s : DualLED) {f : PyFloat} (hf : f.num ≠ 0) :
    blink s (some (.num f)) none =
      ({ off s with
          state := BLINKs ++ ':' :: (s.primary_color ++ ':' :: (floatRender f ++ Hzs)),
          timer := some ⟨.periodic, some (f * 2), none, .blinkToggle (primary_led s)⟩ },
        none) := by
  simp only [blink, freqCoerce_num s.freq hf, led_for_color]
  rfl

/-! ### Failing color validation happens after the timer teardown -/

theorem on'_invalid (s : DualLED) {c : Str} (h1 : pyUpper c ∉ COLORS) (h2 : c ≠ []) :
    on' s (some c) = (stop_timer s, some .valueError) := by
  simp only [on', led_for_color_invalid _ c h1 h2]

theorem toggle_invalid (s : DualLED) {c : Str} (h1 : pyUpper c ∉ COLORS) (h2 : c ≠ []) :
    toggle s (some c) = (stop_timer s, some .valueError) := by
  simp only [toggle, led_for_color_invalid _ c h1 h2]

theorem blink_invalid (s : DualLED) (fa : Option PyNum) {c : Str} {f : PyFloat}
    (hfc : freqCoerce s.freq fa = .ok f) (h1 : pyUpper c ∉ COLORS) (h2 : c ≠ []) :
    blink s fa (some c) = (off s, some .valueError) := by
  simp only [blink, hfc, led_for_color_invalid _ c h1 h2]
  rfl

theorem count_invalid (s : DualLED) (na : PyNum) (fa : Option PyNum) {c : Str}
    {z : ℤ} {f : PyFloat} (hzc : intCoerce na = .ok z)
    (hfc : freqCoerce s.freq fa = .ok f) (h1 : pyUpper c ∉ COLORS) (h2 : c ≠ []) :
    count_number s na fa (some c) = (off s, some .valueError) := by
  simp only [count_number, hfc, hzc, led_for_color_invalid _ c h1 h2]

/-! ### The alternating pattern -/

theorem fireCb_alt_leds (x : DualLED) :
    (fireCb .alternateToggle x).led0 = !x.led0 ∧
    (fireCb .alternateToggle x).led1 = !x.led1 ∧
    (fireCb .alternateToggle x).timer = x.timer := by
  simp only [fireCb]
  cases hpi : x.primaryIsLed0 <;>
    simp [primary_led, secondary_led, hpi, toggleWire, setWire, wireVal]

theorem alt_invariant (tm : TimerH) (hcb : tm.cb = .alternateToggle) :
    ∀ (k : ℕ) (x : DualLED), x.timer = some tm → x.led0 = !x.led1 →
      (fire^[k] x).led0 = !(fire^[k] x).led1 := by
  intro k
  induction k with
  | zero => intro x _ hx; exact hx
  | succ k ih =>
    intro x ht hx
    rw [Function.iterate_succ_apply]
    have hfx : fire x = fireCb .alternateToggle x := by
      rw [fire_eq_of_timer x tm ht, hcb]
    obtain ⟨h0, h1, h2⟩ := fireCb_alt_leds x
    apply ih
    · rw [hfx, h2, ht]
    · rw [hfx, h0, h1, hx, Bool.not_not]

theorem alternate_components (s : DualLED) (fa : Option PyNum) {f : PyFloat}
    (hc : freqCoerce s.freq fa = .ok f) :
    (alternate_colors s fa).2 = none ∧
    (alternate_colors s fa).1.timer =
      some ⟨.periodic, some (f * 2), none, .alternateToggle⟩ ∧
    wireVal (alternate_colors s fa).1 (primary_led (alternate_colors s fa).1) = true ∧
    wireVal (alternate_colors s fa).1 (secondary_led (alternate_colors s fa).1) = false := by
  refine ⟨?_, ?_, ?_, ?_⟩
  · simp only [alternate_colors, on', led_for_color, hc]
  · simp only [alternate_colors, on', led_for_color, hc]
  · simp only [alternate_colors, on', led_for_color, hc]
    cases hpi : s.primaryIsLed0 <;>
      simp [primary_led, secondary_led, hpi, setWire, wireVal]
  · simp only [alternate_colors, on', led_for_color, hc]
    cases hpi : s.primaryIsLed0 <;>
      simp [primary_led, secondary_led, hpi, setWire, wireVal]

/-! ### After `off` no callback ever fires again -/

theorem fire_off (s : DualLED) : fire (off s) = off s := rfl

theorem fire_iterate_off (s : DualLED) (k : ℕ) : fire^[k] (off s) = off s := by
  induction k with
  | zero => rfl
  | succ k ih => rw [Function.iterate_succ_apply', ih, fire_off]

/-! ### Reassigning the primary color -/

theorem set_primary_valid (s : DualLED) {c : Str} (h : pyUpper c ∈ COLORS) :
    set_primary_color s c =
      ({ s with primary_color := pyUpper c,
                primaryIsLed0 := decide (pyUpper c = REDs) }, none) := by
  simp only [set_primary_color, if_pos h]
  by_cases hr : pyUpper c = REDs
  · rw [if_pos (show ({ s with primary_color := pyUpper c } : DualLED).primary_color = REDs
      from hr)]
    rw [show decide (pyUpper c = REDs) = true from by simp [hr]]
  · rw [if_neg (show ¬({ s with primary_color := pyUpper c } : DualLED).primary_color = REDs
      from hr)]
    rw [show decide (pyUpper c = REDs) = false from by simp [hr]]

theorem set_primary_invalid (s : DualLED) {c : Str} (h : pyUpper c ∉ COLORS) :
    set_primary_color s c = (s, some .valueError) := by
  simp only [set_primary_color, if_neg h]

/-! ### Rising edges of the counting burst -/

theorem risingSteps_burst (s0 : DualLED) (w : Wire) (m : ℕ)
    (hwire : ∀ k, k ≤ 2 * m →
      wireVal (fire^[k] s0) w = (decide (k % 2 = 1) && decide (k < 2 * m))) :
    ∀ j, j ≤ m → risingSteps w s0 (2 * j) = j := by
  intro j
  induction j with
  | zero => intro _; rfl
  | succ j ih =>
    intro hj
    have h2 : 2 * (j + 1) = (2 * j + 1) + 1 := by omega
    rw [h2, risingSteps, risingSteps, ih (by omega)]
    have e0 : wireVal (fire^[2 * j] s0) w = false := by
      rw [hwire (2 * j) (by omega)]
      have hp : ¬(2 * j % 2 = 1) := by omega
      simp [hp]
    have e1 : wireVal (fire^[2 * j + 1] s0) w = true := by
      rw [hwire (2 * j + 1) (by omega)]
      have hp : (2 * j + 1) % 2 = 1 := by omega
      have hq : 2 * j + 1 < 2 * m := by omega
      simp [hp, hq]
    have e2 : wireVal (fire^[2 * j + 1 + 1] s0) w = false := by
      rw [hwire (2 * j + 1 + 1) (by omega)]
      have hp : ¬((2 * j + 1 + 1) % 2 = 1) := by omega
      simp [hp]
    rw [e0, e1, e2]
    simp

theorem wireVal_timer_update (x : DualLED) (tm : Option TimerH) (w : Wire) :
    wireVal { x with timer := tm } w = wireVal x w := by
  cases w <;> rfl

theorem opposite_of_primary_secondary (x : DualLED)
    (hp : wireVal x (primary_led x) = true) (hs : wireVal x (secondary_led x) = false) :
    x.led0 = !x.led1 := by
  cases hpi : x.primaryIsLed0 <;>
    simp only [primary_led, secondary_led, hpi, wireVal, if_pos, if_neg,
      Bool.false_eq_true, ite_true, ite_false] at hp hs <;>
    simp [hp, hs]

/-! ## The claims -/

/-- C1 (counterexample): the claim says an unknown color leaves the
previously live timer running.  Concretely: after `blink()` the timer is
live, and `on('PURPLE')` raises `ValueError` but has already deinitialised
that timer. -/
theorem c1_counterexample :
    (blink sampleLED none none).1.timer ≠ none ∧
    on' (blink sampleLED none none).1 (some ['P', 'U', 'R', 'P', 'L', 'E']) =
      (stop_timer (blink sampleLED none none).1, some .valueError) ∧
    (on' (blink sampleLED none none).1 (some ['P', 'U', 'R', 'P', 'L', 'E'])).1.timer =
      none := by
  decide

/-- C1 (amended): a transition called with an unknown color name fails
synchronously and does not write a new pattern descriptor, but validation
happens after mutation has begun: `on`/`toggle` have already deinitialised
the previous timer (state is exactly `stop_timer` of the old state), and
`blink`/`count_number` have additionally forced both wires low and set the
descriptor to `OFF` (state is exactly `off` of the old state). -/
theorem c1_amended_validation_after_teardown (s : DualLED) (c : Str)
    (h1 : pyUpper c ∉ COLORS) (h2 : c ≠ []) :
    on' s (some c) = (stop_timer s, some .valueError) ∧
    toggle s (some c) = (stop_timer s, some .valueError) ∧
    (∀ fa f, freqCoerce s.freq fa = .ok f →
      blink s fa (some c) = (off s, some .valueError)) ∧
    (∀ na fa z f, intCoerce na = .ok z → freqCoerce s.freq fa = .ok f →
      count_number s na fa (some c) = (off s, some .valueError)) :=
  ⟨on'_invalid s h1 h2, toggle_invalid s h1 h2,
    fun fa f hfc => blink_invalid s fa hfc h1 h2,
    fun na fa z f hzc hfc => count_invalid s na fa hzc hfc h1 h2⟩

/-- C1 (witness): the amended theorem applied at a fresh instance and the
color `'PURPLE'`. -/
theorem c1_witness :
    on' sampleLED (some ['P', 'U', 'R', 'P', 'L', 'E']) =
      (stop_timer sampleLED, some .valueError) ∧
    blink sampleLED none (some ['P', 'U', 'R', 'P', 'L', 'E']) =
      (off sampleLED, some .valueError) := by
  have h := c1_amended_validation_after_teardown sampleLED ['P', 'U', 'R', 'P', 'L', 'E']
    (by decide) (by decide)
  exact ⟨h.1, h.2.2.1 none 3 rfl⟩

/-- C2 (counterexample): `blink(freq=0)` does not fail: it succeeds, is
identical to calling with no frequency at all, and silently substitutes the
instance default `3.0`; a negative frequency is also accepted. -/
theorem c2_counterexample :
    (blink sampleLED (some (.num 0)) none).2 = none ∧
    blink sampleLED (some (.num 0)) none = blink sampleLED none none ∧
    (blink sampleLED (some (.num 0)) none).1.state =
      BLINKs ++ ':' :: (REDs ++ ':' :: (floatRender 3 ++ Hzs)) ∧
    (blink sampleLED (some (.num (-2))) none).2 = none := by
  decide

/-- C2 (amended): there is no `InvalidFrequency` check anywhere.  A zero
frequency is falsy in `freq = freq or self.freq` and is silently replaced
by the instance default (the call is literally the same call as passing no
frequency), for `blink`, `alternate_colors` and `count_number` alike; any
nonzero frequency — including negative ones — is accepted and handed to the
timer as `freq * 2`. -/
theorem c2_amended_freq_passthrough (s : DualLED) (f0 q : PyFloat) :
    (f0.num = 0 →
      blink s (some (.num f0)) none = blink s none none ∧
      alternate_colors s (some (.num f0)) = alternate_colors s none ∧
      ∀ na, count_number s na (some (.num f0)) none = count_number s na none none) ∧
    (q.num ≠ 0 →
      (blink s (some (.num q)) none).2 = none ∧
      (blink s (some (.num q)) none).1.timer =
        some ⟨.periodic, some (q * 2), none, .blinkToggle (primary_led s)⟩) := by
  constructor
  · intro h
    exact ⟨blink_zero s none h, alternate_zero s h, fun na => count_zero s na none h⟩
  · intro h
    rw [blink_num_eq s h]
    exact ⟨rfl, rfl⟩

/-- C2 (witness): the amended theorem at a fresh instance, with frequency
`0` (collapses to the default call) and `-5` (accepted, timer armed at
`-10`). -/
theorem c2_witness :
    blink sampleLED (some (.num 0)) none = blink sampleLED none none ∧
    (blink sampleLED (some (.num (-5))) none).2 = none ∧
    (blink sampleLED (some (.num (-5))) none).1.timer =
      some ⟨.periodic, some ((-5 : PyFloat) * 2), none, .blinkToggle .w0⟩ := by
  have h := c2_amended_freq_passthrough sampleLED 0 (-5)
  exact ⟨(h.1 (by decide)).1, (h.2 (by decide)).1, (h.2 (by decide)).2⟩

/-- C3 (counterexample): at `count_number(1, freq=3)` the one-shot pause
timer is armed with `int(4000/3) = 1333` time units, which is not the
claimed `4 × (1000/3)` (Python `int()` truncates). -/
theorem c3_counterexample :
    (fire^[2] (count_number sampleLED (.num 1) (some (.num 3)) none).1).timer =
      some ⟨.oneShot, none, some 1333, .countRestart .w0 1 3⟩ ∧
    ¬((1333 : ℚ) = 4 * (1000 / (3 : ℚ))) := by
  constructor
  · decide
  · norm_num

/-- C3 (amended): for `count_number(n, freq)` with `n ≥ 1` and `freq > 0`:
the call succeeds; over the first `2n` firings the chosen wire is high
exactly after the odd firings, so it makes exactly `n` rising transitions;
`tick_count` after the `k`-th in-burst firing is the number of completed
odd firings `(k+1)/2` (it increments only on firings that leave the wire
high); the firing that leaves the wire low with `tick_count ≥ n` (the
`2n`-th) cancels the periodic timer and arms a one-shot whose pause is
`int(4000/freq)` time units — the truncation of `4 × (1000/freq)`, not
that exact value — and whose firing restores exactly the initial burst
state, restarting the burst indefinitely. -/
theorem c3_amended_burst (s : DualLED) (m : ℕ) (f : PyFloat)
    (hm : 1 ≤ m) (hf : 0 < f.num) :
    (count_number s (.num ⟨(m : ℤ), 1⟩) (some (.num f)) none).2 = none ∧
    (∀ k, k ≤ 2 * m →
      wireVal (fire^[k] (count_number s (.num ⟨(m : ℤ), 1⟩) (some (.num f)) none).1)
          (primary_led s) = (decide (k % 2 = 1) && decide (k < 2 * m))) ∧
    (∀ k, k < 2 * m →
      (fire^[k] (count_number s (.num ⟨(m : ℤ), 1⟩) (some (.num f)) none).1).tick_count =
        (((k + 1) / 2 : ℕ) : ℤ)) ∧
    risingSteps (primary_led s)
      (count_number s (.num ⟨(m : ℤ), 1⟩) (some (.num f)) none).1 (2 * m) = m ∧
    (fire^[2 * m] (count_number s (.num ⟨(m : ℤ), 1⟩) (some (.num f)) none).1).timer =
      some ⟨.oneShot, none, some (pyTrunc (4000 / f)),
        .countRestart (primary_led s) (m : ℤ) f⟩ ∧
    fire^[2 * m + 1] (count_number s (.num ⟨(m : ℤ), 1⟩) (some (.num f)) none).1 =
      (count_number s (.num ⟨(m : ℤ), 1⟩) (some (.num f)) none).1 := by
  obtain ⟨h2, ht, hw, htc⟩ := count_number_components s (m : ℤ) f (by omega)
  set r := (count_number s (.num ⟨(m : ℤ), 1⟩) (some (.num f)) none).1 with hr
  obtain ⟨hstep, hpause, hrestart⟩ := burst_traj r (primary_led s) m f hm ht hw htc
  have hwire : ∀ k, k ≤ 2 * m →
      wireVal (fire^[k] r) (primary_led s) =
        (decide (k % 2 = 1) && decide (k < 2 * m)) := by
    intro k hk
    rcases Nat.lt_or_ge k (2 * m) with hlt | hge
    · rw [hstep k hlt, wireVal_burstState]
      have hd : decide (k < 2 * m) = true := by simp [hlt]
      rw [hd, Bool.and_true]
    · have hk2 : k = 2 * m := by omega
      subst hk2
      rw [hpause, wireVal_timer_update, hw]
      have hd : decide (2 * m < 2 * m) = false := by simp
      rw [hd, Bool.and_false]
  refine ⟨h2, hwire, ?_, ?_, ?_, hrestart⟩
  · intro k hk
    rw [hstep k hk, burstState_tick]
  · exact risingSteps_burst r (primary_led s) m hwire m (le_refl m)
  · rw [hpause]
    rfl

/-- C3 (witness): the amended theorem at a fresh instance with
`count_number(2, freq=5)`: 2 rising edges over the first 4 firings and an
exact restart after the 5th. -/
theorem c3_witness :
    risingSteps (primary_led sampleLED)
      (count_number sampleLED (.num ⟨(2 : ℤ), 1⟩) (some (.num 5)) none).1 (2 * 2) = 2 ∧
    fire^[2 * 2 + 1] (count_number sampleLED (.num ⟨(2 : ℤ), 1⟩) (some (.num 5)) none).1 =
      (count_number sampleLED (.num ⟨(2 : ℤ), 1⟩) (some (.num 5)) none).1 := by
  have h := c3_amended_burst sampleLED 2 5 (by decide) (by decide)
  exact ⟨h.2.2.2.1, h.2.2.2.2.2⟩

/-- C4 (counterexample): with `count_number(0, freq=5)` the completion
check does trigger — already at the second firing the periodic timer has
been cancelled and the one-shot pause timer (period `int(4000/5) = 800`)
has been armed, contradicting the claim that the branch is never taken. -/
theorem c4_counterexample :
    (count_number sampleLED (.num 0) (some (.num 5)) none).2 = none ∧
    (fire^[2] (count_number sampleLED (.num 0) (some (.num 5)) none).1).timer =
      some ⟨.oneShot, none, some 800, .countRestart .w0 0 5⟩ := by
  decide

/-- C4 (amended): for `count_number(n, ...)` with `n ≤ 0` the call is
indeed not rejected, but the completion test `tick_count >= n` is
vacuously true at the first firing that leaves the wire low: after one
pulse (two firings) the pause branch fires, and the pattern degenerates to
single-pulse-then-pause repeated indefinitely — it is not the case that
the branch never triggers. -/
theorem c4_amended_low_count (s : DualLED) (z : ℤ) (f : PyFloat)
    (hz : z ≤ 0) (hf : 0 < f.num) :
    (count_number s (.num ⟨z, 1⟩) (some (.num f)) none).2 = none ∧
    (fire^[2] (count_number s (.num ⟨z, 1⟩) (some (.num f)) none).1).timer =
      some ⟨.oneShot, none, some (pyTrunc (4000 / f)), .countRestart (primary_led s) z f⟩ ∧
    fire^[3] (count_number s (.num ⟨z, 1⟩) (some (.num f)) none).1 =
      (count_number s (.num ⟨z, 1⟩) (some (.num f)) none).1 := by
  obtain ⟨h2, ht, hw, htc⟩ := count_number_components s z f (by omega)
  set r := (count_number s (.num ⟨z, 1⟩) (some (.num f)) none).1 with hr
  have h0 : r = burstState r (primary_led s) 0 :=
    (burstState_zero r (primary_led s) hw htc).symm
  have h1 : fire^[1] r = burstState r (primary_led s) 1 := by
    rw [Function.iterate_one]
    conv_lhs => rw [h0]
    exact fire_burstState r (primary_led s) z f ht 0 (Or.inl rfl)
  have h2f : fire^[2] r = { r with timer := some (pausedCountTimer (primary_led s) z f) } := by
    have hs2 : fire^[2] r = fire (fire^[1] r) := Function.iterate_succ_apply' fire 1 r
    rw [hs2, h1]
    refine fire_burstState_complete r (primary_led s) z f ht hw htc 1 rfl ?_
    show z ≤ (((1 + 1) / 2 : ℕ) : ℤ)
    omega
  refine ⟨h2, ?_, ?_⟩
  · rw [h2f]
    rfl
  · have hs3 : fire^[3] r = fire (fire^[2] r) := Function.iterate_succ_apply' fire 2 r
    rw [hs3, h2f]
    exact fire_pause r (primary_led s) z f ht htc

/-- C4 (witness): the amended theorem at `count_number(-1, freq=5)`. -/
theorem c4_witness :
    (count_number sampleLED (.num ⟨-1, 1⟩) (some (.num 5)) none).2 = none ∧
    (fire^[2] (count_number sampleLED (.num ⟨-1, 1⟩) (some (.num 5)) none).1).timer =
      some ⟨.oneShot, none, some (pyTrunc (4000 / 5)),
        .countRestart (primary_led sampleLED) (-1) 5⟩ := by
  have h := c4_amended_low_count sampleLED (-1) 5 (by decide) (by decide)
  exact ⟨h.1, h.2.1⟩

/-- C5 (counterexample): restoring `'BLINK:PURPLE:5/1Hz'` onto a
controller that is `ON:RED` is caught and logged (no exception escapes),
but the controller does not keep its previous state: both wires are forced
low and the descriptor becomes `OFF` before the bad color is detected. -/
theorem c5_counterexample :
    restore_state (on' sampleLED (some REDs)).1
        (BLINKs ++ ':' :: (['P', 'U', 'R', 'P', 'L', 'E'] ++ ':' ::
          (floatRender 5 ++ Hzs))) =
      (off (on' sampleLED (some REDs)).1, true) ∧
    (restore_state (on' sampleLED (some REDs)).1
        (BLINKs ++ ':' :: (['P', 'U', 'R', 'P', 'L', 'E'] ++ ':' ::
          (floatRender 5 ++ Hzs)))).1 ≠
      (on' sampleLED (some REDs)).1 := by
  decide

/-- C5 (amended): failures inside `restore_state` are caught and logged
and never propagate (the model of `restore_state` is total, returning a
logged flag), but the state is not left unchanged: a `BLINK` descriptor
with an unrecognised color turns the controller fully off (wires low,
descriptor `OFF`, timer stopped) before the color validation raises. -/
theorem c5_amended_restore_catches (t : DualLED) (c : Str) (f : PyFloat)
    (h1 : pyUpper c ∉ COLORS) (h2 : c ≠ []) (hcol : ':' ∉ c) (hf : f.WF) :
    restore_state t (BLINKs ++ ':' :: (c ++ ':' :: (floatRender f ++ Hzs))) =
      (off t, true) := by
  rw [restore_state, pySplit_BLINK hcol f]
  show toLogged (blink t (some (.str (stripLast2
    (pyLastF BLINKs [c, floatRender f ++ Hzs])))) (some c)) = _
  rw [show pyLastF BLINKs [c, floatRender f ++ Hzs] = floatRender f ++ Hzs from rfl,
    stripLast2_append_Hzs,
    blink_invalid t _ (freqCoerce_renders t.freq hf) h1 h2]
  rfl

/-- C5 (witness): the amended theorem at a fresh instance and the
descriptor `'BLINK:PURPLE:5/1Hz'`. -/
theorem c5_witness :
    restore_state sampleLED
        (BLINKs ++ ':' :: (['P', 'U', 'R', 'P', 'L', 'E'] ++ ':' ::
          (floatRender 5 ++ Hzs))) =
      (off sampleLED, true) :=
  c5_amended_restore_catches sampleLED ['P', 'U', 'R', 'P', 'L', 'E'] 5
    (by decide) (by decide) (by decide) (by decide : (5 : PyFloat).den ≠ 0)

/-- C6: for every reachable controller state, feeding the descriptor
produced by `get_state` back into `restore_state` (on any controller)
succeeds without logging and reproduces the same descriptor — hence the
same variant and color/frequency/count fields, the transient `tick_count`
aside; the parse strips the trailing `'Hz'` before numeric conversion. -/
theorem c6_roundtrip (s t : DualLED) (h : Reachable s) :
    (restore_state t (get_state s).1).2 = false ∧
    (restore_state t (get_state s).1).1.state = (get_state s).1 :=
  restore_state_StateWF t (Reachable_WFLED h).2.2

/-- C6 (witness): the round trip at the reachable state reached by
`blink()` from a freshly constructed instance. -/
theorem c6_witness :
    (restore_state sampleLED (get_state (blink sampleLED none none).1).1).2 = false ∧
    (restore_state sampleLED (get_state (blink sampleLED none none).1).1).1.state =
      (get_state (blink sampleLED none none).1).1 :=
  c6_roundtrip (blink sampleLED none none).1 sampleLED
    (Reachable.blinkR sampleLED none none trivial
      (Reachable.init REDs none sampleLED (fun f h => Option.noConfusion h) rfl))

/-- C7: after a successful `alternate_colors` call the primary wire reads
1 and the secondary reads 0, and after every firing of the periodic timer
the two wires hold opposite levels — an invariant over all firings. -/
theorem c7_alternate_invariant (s : DualLED) (fa : Option PyNum)
    (h : (alternate_colors s fa).2 = none) :
    wireVal (alternate_colors s fa).1 (primary_led (alternate_colors s fa).1) = true ∧
    wireVal (alternate_colors s fa).1 (secondary_led (alternate_colors s fa).1) = false ∧
    ∀ k, (fire^[k] (alternate_colors s fa).1).led0 =
      !((fire^[k] (alternate_colors s fa).1).led1) := by
  cases hc : freqCoerce s.freq fa with
  | error e =>
    exfalso
    have hbad : (alternate_colors s fa).2 = some e := by
      simp only [alternate_colors, hc]
    rw [hbad] at h
    exact Option.noConfusion h
  | ok f =>
    obtain ⟨h2, ht, hp, hs⟩ := alternate_components s fa hc
    refine ⟨hp, hs, ?_⟩
    intro k
    exact alt_invariant ⟨.periodic, some (f * 2), none, .alternateToggle⟩ rfl k _ ht
      (opposite_of_primary_secondary _ hp hs)

/-- C7 (witness): the invariant at a fresh instance after
`alternate_colors()` with the default frequency, checked after 5 firings. -/
theorem c7_witness :
    wireVal (alternate_colors sampleLED none).1
      (primary_led (alternate_colors sampleLED none).1) = true ∧
    (fire^[5] (alternate_colors sampleLED none).1).led0 =
      !((fire^[5] (alternate_colors sampleLED none).1).led1) := by
  have h := c7_alternate_invariant sampleLED none (by decide)
  exact ⟨h.1, h.2.2 5⟩

/-- C8: from any prior state, `off()` leaves both wires at level 0, sets
the descriptor to `OFF` and cancels any live timer, after which no timer
callback ever fires again (every further firing is the identity). -/
theorem c8_off (s : DualLED) :
    (off s).led0 = false ∧ (off s).led1 = false ∧ (off s).state = OFFs ∧
    (off s).timer = none ∧ ∀ k, fire^[k] (off s) = off s :=
  ⟨rfl, rfl, rfl, rfl, fire_iterate_off s⟩

/-- C9: `set_primary_color` with a recognised color reassigns only the
primary designation (the full result state is the old state with just
`primary_color` and `primaryIsLed0` replaced — wire levels, timer and
descriptor untouched), and with an unrecognised color it raises
`ValueError` leaving the state, including the primary designation,
entirely unchanged. -/
theorem c9_set_primary (s : DualLED) (c : Str) :
    (pyUpper c ∈ COLORS →
      set_primary_color s c =
        ({ s with primary_color := pyUpper c,
                  primaryIsLed0 := decide (pyUpper c = REDs) }, none)) ∧
    (pyUpper c ∉ COLORS → set_primary_color s c = (s, some .valueError)) :=
  ⟨fun h => set_primary_valid s h, fun h => set_primary_invalid s h⟩

/-- C9 (witness): reassigning to `'GREEN'` succeeds without touching the
wires; `'PURPLE'` fails leaving the instance unchanged. -/
theorem c9_witness :
    set_primary_color sampleLED GREENs =
      ({ sampleLED with primary_color := pyUpper GREENs,
                        primaryIsLed0 := decide (pyUpper GREENs = REDs) }, none) ∧
    set_primary_color sampleLED ['P', 'U', 'R', 'P', 'L', 'E'] =
      (sampleLED, some .valueError) :=
  ⟨(c9_set_primary sampleLED GREENs).1 (by decide),
    (c9_set_primary sampleLED ['P', 'U', 'R', 'P', 'L', 'E']).2 (by decide)⟩

/-- C10: a state string whose first colon-separated field is none of
`OFF`, `ON`, `BLINK`, `COUNT`, `ALTERNATE` makes `restore_state` a silent
no-op: nothing is logged and the controller state is returned entirely
unchanged. -/
theorem c10_restore_unknown_noop (s : DualLED) (l : Str) (f0 : Str) (rest : List Str)
    (hsplit : pySplit ':' l = f0 :: rest)
    (h1 : f0 ≠ OFFs) (h2 : f0 ≠ ONs) (h3 : f0 ≠ BLINKs) (h4 : f0 ≠ COUNTs)
    (h5 : f0 ≠ ALTERNATEs) :
    restore_state s l = (s, false) := by
  rw [restore_state, hsplit]
  simp only [restoreFields, if_neg h1, if_neg h2, if_neg h3, if_neg h4, if_neg h5]

/-- C10 (witness): restoring `'BOGUS:X'` is a silent no-op. -/
theorem c10_witness :
    restore_state sampleLED ['B', 'O', 'G', 'U', 'S', ':', 'X'] = (sampleLED, false) :=
  c10_restore_unknown_noop sampleLED ['B', 'O', 'G', 'U', 'S', ':', 'X']
    ['B', 'O', 'G', 'U', 'S'] [['X']]
    (by decide) (by decide) (by decide) (by decide) (by decide) (by decide)

end DualLed
